import Mathlib

/-!
Verification of the Document Field Extraction Engine of the
Image-text-extractor repository, a shallow embedding of
src/services/ocrService.js (the second, MRZ-aware DataExtractor class)
and of the MRZ handling and confidence computation of the passport
route.  Texts are modelled as lists of characters (JS strings over the
ASCII range); JS regular expressions are modelled by a small
backtracking matcher with ordered alternation, greedy and lazy
character-class quantifiers, word boundaries and capture groups, which
mirrors the leftmost-match backtracking semantics of the JS engine on
the pattern forms used by the source.
-/

namespace ImgX

abbrev Str := List Char

def strL (s : String) : Str := s.data

/-- ASCII decimal digit, the JS d character class. -/
def isDigitC (c : Char) : Bool := decide (48 ≤ c.toNat ∧ c.toNat ≤ 57)

/-- JS whitespace class, restricted to the ASCII range of the inputs. -/
def isWsC (c : Char) : Bool :=
  decide (c.toNat = 32 ∨ (9 ≤ c.toNat ∧ c.toNat ≤ 13))

def isUpperC (c : Char) : Bool := decide (65 ≤ c.toNat ∧ c.toNat ≤ 90)

def isLowerC (c : Char) : Bool := decide (97 ≤ c.toNat ∧ c.toNat ≤ 122)

def isAlphaC (c : Char) : Bool := isUpperC c || isLowerC c

/-- JS w word class: letters, digits, underscore. -/
def isWordC (c : Char) : Bool := isAlphaC c || isDigitC c || decide (c = '_')

/-- ASCII uppercasing, as String.prototype.toUpperCase on ASCII input. -/
def upC (c : Char) : Char :=
  if isLowerC c then Char.ofNat (c.toNat - 32) else c

def lowC (c : Char) : Char :=
  if isUpperC c then Char.ofNat (c.toNat + 32) else c

def upper (s : Str) : Str := s.map upC

def lower (s : Str) : Str := s.map lowC

/-- Case-insensitive character comparison, for regexes with the i flag. -/
def eqCI (a b : Char) : Bool := upC a = upC b

/-- String.prototype.trim. -/
def trimL (s : Str) : Str :=
  ((s.dropWhile isWsC).reverse.dropWhile isWsC).reverse

/-- Substring containment, String.prototype.includes. -/
def startsWithL : Str → Str → Bool
  | _, [] => true
  | [], _ :: _ => false
  | c :: cs, p :: ps => c = p && startsWithL cs ps

def containsSub : Str → Str → Bool
  | s, pat =>
    if startsWithL s pat then true
    else match s with
      | [] => false
      | _ :: rest => containsSub rest pat

def endsWithL (s pat : Str) : Bool := startsWithL s.reverse pat.reverse

/-- text.split on the JS separator n, r n or r, keeping empty pieces. -/
def splitLinesJS : Str → List Str
  | [] => [[]]
  | '\r' :: '\n' :: rest => [] :: splitLinesJS rest
  | '\n' :: rest => [] :: splitLinesJS rest
  | '\r' :: rest => [] :: splitLinesJS rest
  | c :: rest =>
    match splitLinesJS rest with
    | [] => [[c]]
    | l :: ls => (c :: l) :: ls

/-- replace of one or more whitespace by a single space, the s+ to
space normalization step. -/
def collapseWs : Bool → Str → Str
  | _, [] => []
  | inWs, c :: rest =>
    if isWsC c then
      if inWs then collapseWs true rest else ' ' :: collapseWs true rest
    else c :: collapseWs false rest

/-- text.replace of s+ with a space, then trim, as in the extractors. -/
def normalizeJS (s : Str) : Str := trimL (collapseWs false s)

/-- line.split on s+ for trimmed lines: the word list (JS split yields
no empty pieces on trimmed nonempty input, the only way it is used). -/
def splitWsL : Str → List Str
  | [] => []
  | c :: rest =>
    if isWsC c then splitWsL rest
    else
      match splitWsL rest with
      | [] => [[c]]
      | w :: ws =>
        match rest with
        | [] => [[c]]
        | r :: _ => if isWsC r then [c] :: w :: ws else (c :: w) :: ws

/-! ### A JS-style regular expression matcher

Ordered alternation, greedy and lazy quantifiers over character
classes, optional subexpressions, anchors, word boundaries and
numbered capture groups: exactly the constructs appearing in the
source patterns.  Matching is leftmost with backtracking, as in JS. -/

inductive RE where
  | eps
  | str (s : Str) (ci : Bool)
  | cls (p : Char → Bool)
  | rep (p : Char → Bool) (lo : Nat) (hi : Option Nat) (lzy : Bool)
  | opt (r : RE)
  | seq (a b : RE)
  | alt (a b : RE)
  | grp (n : Nat) (r : RE)
  | bos
  | eos (ml : Bool)
  | wb

abbrev Caps := List (Nat × Nat × Nat)

abbrev MRes := Option (Nat × Caps)

def litAt (s : Str) (pos : Nat) (lit : Str) (ci : Bool) : Bool :=
  if ci then startsWithL (upper (s.drop pos)) (upper lit)
  else startsWithL (s.drop pos) lit

def runLen (s : Str) (pos : Nat) (p : Char → Bool) : Nat :=
  ((s.drop pos).takeWhile p).length

def wordAt (s : Str) (i : Nat) : Bool :=
  match s.get? i with
  | some c => isWordC c
  | none => false

/-- Try each consumed-length in the given order for a quantified
character class, with full backtracking into the continuation. -/
def tryCounts (pos : Nat) (caps : Caps) (k : Nat → Caps → MRes) :
    List Nat → MRes
  | [] => none
  | n :: rest =>
    match k (pos + n) caps with
    | some r => some r
    | none => tryCounts pos caps k rest

def countsFor (lo m : Nat) (lzy : Bool) : List Nat :=
  if lo > m then []
  else
    let asc := (List.range (m - lo + 1)).map (fun i => lo + i)
    if lzy then asc else asc.reverse

def reM (s : Str) : RE → Nat → Caps → (Nat → Caps → MRes) → MRes
  | .eps, pos, caps, k => k pos caps
  | .str lit ci, pos, caps, k =>
    if litAt s pos lit ci then k (pos + lit.length) caps else none
  | .cls p, pos, caps, k =>
    match s.get? pos with
    | some c => if p c then k (pos + 1) caps else none
    | none => none
  | .rep p lo hi lzy, pos, caps, k =>
    let m := runLen s pos p
    let m := match hi with
      | some h => min m h
      | none => m
    tryCounts pos caps k (countsFor lo m lzy)
  | .opt r, pos, caps, k =>
    match reM s r pos caps k with
    | some res => some res
    | none => k pos caps
  | .seq a b, pos, caps, k =>
    reM s a pos caps (fun p c => reM s b p c k)
  | .alt a b, pos, caps, k =>
    match reM s a pos caps k with
    | some res => some res
    | none => reM s b pos caps k
  | .grp n r, pos, caps, k =>
    reM s r pos caps (fun p c => k p ((n, pos, p) :: c))
  | .bos, pos, caps, k => if pos = 0 then k pos caps else none
  | .eos ml, pos, caps, k =>
    if pos = s.length then k pos caps
    else if ml then
      match s.get? pos with
      | some c => if c = '\n' || c = '\r' then k pos caps else none
      | none => none
    else none
  | .wb, pos, caps, k =>
    let prev := if pos = 0 then false else wordAt s (pos - 1)
    let cur := wordAt s pos
    if prev != cur then k pos caps else none

/-- Leftmost search: attempt the pattern at every start position. -/
def reFindGo (r : RE) (s : Str) : Nat → Nat → Option (Nat × Nat × Caps)
  | _, 0 => none
  | pos, fuel + 1 =>
    match reM s r pos [] (fun p c => some (p, c)) with
    | some (e, c) => some (pos, e, c)
    | none => reFindGo r s (pos + 1) fuel

def reFind (r : RE) (s : Str) : Option (Nat × Nat × Caps) :=
  reFindGo r s 0 (s.length + 1)

def reTest (r : RE) (s : Str) : Bool := (reFind r s).isSome

def slice (s : Str) (a b : Nat) : Str := (s.drop a).take (b - a)

/-- The full match text, match[0]. -/
def reMatch0 (r : RE) (s : Str) : Option Str :=
  match reFind r s with
  | some (a, b, _) => some (slice s a b)
  | none => none

def capLookup (caps : Caps) (n : Nat) : Option (Nat × Nat) :=
  match caps.find? (fun t => t.1 = n) with
  | some (_, a, b) => some (a, b)
  | none => none

/-- The text of capture group n. -/
def reMatchN (r : RE) (s : Str) (n : Nat) : Option Str :=
  match reFind r s with
  | some (_, _, caps) =>
    match capLookup caps n with
    | some (a, b) => some (slice s a b)
    | none => none
  | none => none

def reMatch1 (r : RE) (s : Str) : Option Str := reMatchN r s 1

/-- All matches of a global pattern, with the JS lastIndex rule. -/
def reMatchAllGo (r : RE) (s : Str) : Nat → Nat → List Str
  | _, 0 => []
  | pos, fuel + 1 =>
    if pos > s.length then []
    else
      match reFindGo r s pos (s.length + 1 - pos) with
      | some (a, b, _) =>
        slice s a b :: reMatchAllGo r s (if b = a then b + 1 else b) fuel
      | none => []

def reMatchAll (r : RE) (s : Str) : List Str :=
  reMatchAllGo r s 0 (s.length + 1)

/-- replace with a non-global pattern: first match only.  The
replacement is computed from the whole string and the capture list. -/
def replFirst (r : RE) (f : Str → Caps → Str) (s : Str) : Str :=
  match reFind r s with
  | some (a, b, caps) => s.take a ++ f s caps ++ s.drop b
  | none => s

/-- replace with a global pattern: every match, scanning left to
right and resuming after each match. -/
def replAllGo (r : RE) (f : Str → Caps → Str) (s : Str) : Nat → Nat → Str
  | _, 0 => []
  | pos, fuel + 1 =>
    if pos ≥ s.length then []
    else
      match reFindGo r s pos (s.length + 1 - pos) with
      | some (a, b, caps) =>
        if b = a then
          slice s pos a ++ f s caps ++
            (match s.get? a with
             | some c => c :: replAllGo r f s (a + 1) fuel
             | none => [])
        else
          slice s pos a ++ f s caps ++ replAllGo r f s b fuel
      | none => s.drop pos

def replAll (r : RE) (f : Str → Caps → Str) (s : Str) : Str :=
  replAllGo r f s 0 (s.length + 1)

def capSlice (s : Str) (caps : Caps) (n : Nat) : Str :=
  match capLookup caps n with
  | some (a, b) => slice s a b
  | none => []

/-! Convenience builders for the source patterns. -/

def rstr (s : String) : RE := .str s.data false

def rstrCI (s : String) : RE := .str s.data true

def rchar (c : Char) : RE := .str [c] false

def seqL : List RE → RE
  | [] => .eps
  | [r] => r
  | r :: rest => .seq r (seqL rest)

def altL : List RE → RE
  | [] => .eps
  | [r] => r
  | r :: rest => .alt r (altL rest)

def dd (n : Nat) : RE := .rep isDigitC n (some n) false

def dRange (a b : Nat) : RE := .rep isDigitC a (some b) false

def wsPlus : RE := .rep isWsC 1 none false

def wsStar : RE := .rep isWsC 0 none false

def colonWsPlus : RE := .rep (fun c => c = ':' || isWsC c) 1 none false

def colonWsStar : RE := .rep (fun c => c = ':' || isWsC c) 0 none false

/-- The JS dot: any character but a line terminator. -/
def dotC (c : Char) : Bool := !(c = '\n' || c = '\r')

def dotPlus : RE := .rep dotC 1 none false

def dotPlusLazy : RE := .rep dotC 1 none true

def hasKw (lu : Str) (k : String) : Bool := containsSub lu (strL k)

/-! ### The regular expressions of the extractors, transliterated

Each definition carries the source pattern it embeds.  Classes written
with letters in patterns carrying the i flag match both cases. -/

def dotSlashC (c : Char) : Bool := c = '.' || c = '/'

def alphaWsC (c : Char) : Bool := isAlphaC c || isWsC c

def upAlnumC (c : Char) : Bool := isUpperC c || isDigitC c

def alnumC (c : Char) : Bool := isAlphaC c || isDigitC c

/-- (d{1,2}[./]d{1,2}[./]d{4}) -/
def dateCore : RE := seqL [dRange 1 2, .cls dotSlashC, dRange 1 2, .cls dotSlashC, dd 4]

def cnPatDate : RE := .grp 1 dateCore

/-- (?:JAN|FEB|MAR|APR|MAY|JUN|JUL|AUG|SEP|OCT|NOV|DEC) with i -/
def monthsAlt : RE :=
  altL [rstrCI "JAN", rstrCI "FEB", rstrCI "MAR", rstrCI "APR", rstrCI "MAY", rstrCI "JUN",
        rstrCI "JUL", rstrCI "AUG", rstrCI "SEP", rstrCI "OCT", rstrCI "NOV", rstrCI "DEC"]

/-- d{1,2} s+ months s+ d{4} -/
def monDateCore : RE := seqL [dRange 1 2, wsPlus, monthsAlt, wsPlus, dd 4]

/-- (?:DOB|Date s+of s+Birth|Birth)[:s]*(date) with i, numeric date -/
def cnPatDob : RE :=
  seqL [altL [rstrCI "DOB", seqL [rstrCI "Date", wsPlus, rstrCI "of", wsPlus, rstrCI "Birth"],
              rstrCI "Birth"],
        colonWsStar, .grp 1 dateCore]

/-- (?:DOI|Date s+of s+Issue|Issue)[:s]*(date) with i -/
def cnPatIssue : RE :=
  seqL [altL [rstrCI "DOI", seqL [rstrCI "Date", wsPlus, rstrCI "of", wsPlus, rstrCI "Issue"],
              rstrCI "Issue"],
        colonWsStar, .grp 1 dateCore]

/-- (?:DOE|Date s+of s+Expiry|Expiry|Valid s+Until)[:s]*(date) with i -/
def cnPatExpiry : RE :=
  seqL [altL [rstrCI "DOE", seqL [rstrCI "Date", wsPlus, rstrCI "of", wsPlus, rstrCI "Expiry"],
              rstrCI "Expiry", seqL [rstrCI "Valid", wsPlus, rstrCI "Until"]],
        colonWsStar, .grp 1 dateCore]

/-- b(MALE|FEMALE|M|F)b with i -/
def genderPat : RE :=
  seqL [.wb, .grp 1 (altL [rstrCI "MALE", rstrCI "FEMALE", rstrCI "M", rstrCI "F"]), .wb]

/-- Name[:s]+(.+)$ with i -/
def nameSameLinePat : RE := seqL [rstrCI "Name", colonWsPlus, .grp 1 dotPlus, .eos false]

/-- ^(FATHER|HUSBAND|GENDER|COUNTRY|IDENTITY|CNIC|DATE|BIRTH|ISSUE|EXPIRY) -/
def nameLabelPat : RE :=
  seqL [.bos, .grp 1 (altL [rstr "FATHER", rstr "HUSBAND", rstr "GENDER", rstr "COUNTRY",
    rstr "IDENTITY", rstr "CNIC", rstr "DATE", rstr "BIRTH", rstr "ISSUE", rstr "EXPIRY"])]

/-- ^(FATHER|HUSBAND|GENDER|COUNTRY|IDENTITY|CNIC|DATE|BIRTH|ISSUE|EXPIRY|MALE|FEMALE) -/
def nameNextLabelPat : RE :=
  seqL [.bos, .grp 1 (altL [rstr "FATHER", rstr "HUSBAND", rstr "GENDER", rstr "COUNTRY",
    rstr "IDENTITY", rstr "CNIC", rstr "DATE", rstr "BIRTH", rstr "ISSUE", rstr "EXPIRY",
    rstr "MALE", rstr "FEMALE"])]

/-- ^(GENDER|COUNTRY|IDENTITY|CNIC|DATE|BIRTH|ISSUE|EXPIRY|NAME) -/
def fatherLabelPat : RE :=
  seqL [.bos, .grp 1 (altL [rstr "GENDER", rstr "COUNTRY", rstr "IDENTITY", rstr "CNIC",
    rstr "DATE", rstr "BIRTH", rstr "ISSUE", rstr "EXPIRY", rstr "NAME"])]

/-- ^(GENDER|COUNTRY|IDENTITY|CNIC|DATE|BIRTH|ISSUE|EXPIRY|MALE|FEMALE|NAME) -/
def fatherNextLabelPat : RE :=
  seqL [.bos, .grp 1 (altL [rstr "GENDER", rstr "COUNTRY", rstr "IDENTITY", rstr "CNIC",
    rstr "DATE", rstr "BIRTH", rstr "ISSUE", rstr "EXPIRY", rstr "MALE", rstr "FEMALE",
    rstr "NAME"])]

/-- ^d -/
def startsDigitPat : RE := seqL [.bos, .cls isDigitC]

/-- (?:Father s+Name|Father|Husband s+Name|Husband|S/O|D/O|W/O)[:s]+(.+)$ with i -/
def fatherSameLinePat : RE :=
  seqL [altL [seqL [rstrCI "Father", wsPlus, rstrCI "Name"], rstrCI "Father",
              seqL [rstrCI "Husband", wsPlus, rstrCI "Name"], rstrCI "Husband",
              rstrCI "S/O", rstrCI "D/O", rstrCI "W/O"],
        colonWsPlus, .grp 1 dotPlus, .eos false]

/-- d{5} -/
def digits5Pat : RE := dd 5

/-- ^[^A-Za-z]*$ -/
def onlySpecialPat : RE :=
  seqL [.bos, .rep (fun c => !isAlphaC c) 0 none false, .eos false]

/-- [A-Za-z]{3,} -/
def alpha3Pat : RE := .rep isAlphaC 3 none false

def junkEdgeC (c : Char) : Bool := c = '|' || c = '-' || c = '—' || c = '_' || isWsC c

/-- [|-—_s]+$ -/
def trailJunkPat : RE := seqL [.rep junkEdgeC 1 none false, .eos false]

/-- ^[|-—_s]+ -/
def leadJunkPat : RE := seqL [.bos, .rep junkEdgeC 1 none false]

/-- ^[—-_|]+ (the start-of-line special-character test) -/
def leadSpecialPat : RE :=
  seqL [.bos, .rep (fun c => c = '—' || c = '-' || c = '_' || c = '|') 1 none false]

/-- ^[^A-Za-z]{2,} -/
def leadNonAlpha2Pat : RE := seqL [.bos, .rep (fun c => !isAlphaC c) 2 none false]

/-- Split a keyword at its spaces. -/
def splitSpace : Str → List Str
  | [] => []
  | ' ' :: rest => splitSpace rest
  | c :: rest =>
    match splitSpace rest with
    | [] => [[c]]
    | w :: ws =>
      match rest with
      | ' ' :: _ => [c] :: w :: ws
      | _ => (c :: w) :: ws

/-- b kw b with i, internal whitespace of the keyword as s+ -/
def kwRE (kw : String) : RE :=
  seqL ([RE.wb] ++ (((splitSpace (strL kw)).map (fun w => RE.str w true)).intersperse wsPlus)
    ++ [RE.wb])

/-- (?:Country|Nationality|Country s+of s+Birth|Country s+Name|Nationality s+Code)
[:s]+([A-Zs]{2,}?)(?:s+d|$) with i and m -/
def countryPat1 : RE :=
  seqL [altL [rstrCI "Country", rstrCI "Nationality",
              seqL [rstrCI "Country", wsPlus, rstrCI "of", wsPlus, rstrCI "Birth"],
              seqL [rstrCI "Country", wsPlus, rstrCI "Name"],
              seqL [rstrCI "Nationality", wsPlus, rstrCI "Code"]],
        colonWsPlus, .grp 1 (.rep alphaWsC 2 none true),
        altL [seqL [wsPlus, .cls isDigitC], .eos true]]

/-- (?:Issued s+in|Issued s+by|Place s+of s+Issue)[:s]+([A-Zs]{2,}?)(?:s+d|$) with i -/
def countryPat2 : RE :=
  seqL [altL [seqL [rstrCI "Issued", wsPlus, rstrCI "in"],
              seqL [rstrCI "Issued", wsPlus, rstrCI "by"],
              seqL [rstrCI "Place", wsPlus, rstrCI "of", wsPlus, rstrCI "Issue"]],
        colonWsPlus, .grp 1 (.rep alphaWsC 2 none true),
        altL [seqL [wsPlus, .cls isDigitC], .eos false]]

/-- bPAKISTANb with i -/
def pakWordPat : RE := seqL [.wb, rstrCI "PAKISTAN", .wb]

/-- bPAKb with i -/
def pakShortPat : RE := seqL [.wb, rstrCI "PAK", .wb]

/-- PAKISTAN with i -/
def pakAnyPat : RE := rstrCI "PAKISTAN"

/-- (?:Address|Residence)[:s]+(.+?)(?:s+d{5}|$) with i -/
def addressPat : RE :=
  seqL [altL [rstrCI "Address", rstrCI "Residence"], colonWsPlus, .grp 1 dotPlusLazy,
        altL [seqL [wsPlus, dd 5], .eos false]]

/-- Passport s+Number[:s]+(.+)$ with i -/
def ppnSamePat : RE :=
  seqL [rstrCI "Passport", wsPlus, rstrCI "Number", colonWsPlus, .grp 1 dotPlus, .eos false]

/-- ^[A-Z0-9]+$ -/
def upAlnumPat : RE := seqL [.bos, .rep upAlnumC 1 none false, .eos false]

/-- (?:Passport|P s*No|Passport s*No)[:s]*([A-Z0-9]{6,12}) with i -/
def ppnPatternPat : RE :=
  seqL [altL [rstrCI "Passport", seqL [rstrCI "P", wsStar, rstrCI "No"],
              seqL [rstrCI "Passport", wsStar, rstrCI "No"]],
        colonWsStar, .grp 1 (.rep alnumC 6 (some 12) false)]

/-- b([A-Z]{2}d{7,8})b -/
def ppnLinePat : RE :=
  seqL [.wb, .grp 1 (seqL [.rep isUpperC 2 (some 2) false, dRange 7 8]), .wb]

/-- Date s+of s+Birth[:s]+(.+)$ with i -/
def dobSamePat : RE :=
  seqL [rstrCI "Date", wsPlus, rstrCI "of", wsPlus, rstrCI "Birth", colonWsPlus,
        .grp 1 dotPlus, .eos false]

/-- d -/
def digitAnyPat : RE := .cls isDigitC

/-- (?:-?s*)?(d{1,2}|[a-z]{2})s+(months)s+(d{4}) with i -/
def dobLineFallbackPat : RE :=
  seqL [.opt (seqL [.rep (fun c => c = '-') 0 (some 1) false, wsStar]),
        .grp 1 (altL [dRange 1 2, .rep isAlphaC 2 (some 2) false]),
        wsPlus, .grp 2 monthsAlt, wsPlus, .grp 3 (dd 4)]

/-- ^d{1,2}$ -/
def dayPat : RE := seqL [.bos, dRange 1 2, .eos false]

/-- d{5}-d{7}-d{1} -/
def cnicDashedCore : RE := seqL [dd 5, rchar '-', dd 7, rchar '-', dd 1]

/-- d{13} -/
def digits13Pat : RE := dd 13

/-- Date s+of s+Expiry[:s]+(.+)$ with i -/
def doeSamePat : RE :=
  seqL [rstrCI "Date", wsPlus, rstrCI "of", wsPlus, rstrCI "Expiry", colonWsPlus,
        .grp 1 dotPlus, .eos false]

/-- (?:[^0-9]*?)(d{1,2}|[a-z]{2})s+(months)s+(d{4}) with i -/
def doeLineFallbackPat : RE :=
  seqL [.rep (fun c => !isDigitC c) 0 none true,
        .grp 1 (altL [dRange 1 2, .rep isAlphaC 2 (some 2) false]),
        wsPlus, .grp 2 monthsAlt, wsPlus, .grp 3 (dd 4)]

/-- d{10,12} -/
def digits10to12Pat : RE := dRange 10 12

/-- (d{1,2} s+(?:months) s+d{4}) with g and i -/
def ppDateMonPat : RE := .grp 1 monDateCore

/-- (d{1,2}[./]d{1,2}[./]d{4}) with g -/
def ppDateNumPat : RE := .grp 1 dateCore

/-- (?:DOB|Date s+of s+Birth|Birth)[:s]*(mon date) with i -/
def ppDobMonPat : RE :=
  seqL [altL [rstrCI "DOB", seqL [rstrCI "Date", wsPlus, rstrCI "of", wsPlus, rstrCI "Birth"],
              rstrCI "Birth"],
        colonWsStar, .grp 1 monDateCore]

/-- (?:DOB|Date s+of s+Birth|Birth)[:s]*(numeric date) with i -/
def ppDobNumPat : RE := cnPatDob

/-- (?:DOE|Date s+of s+Expiry|Expiry|Valid s+Until)[:s]*(mon date) with i -/
def ppExpMonPat : RE :=
  seqL [altL [rstrCI "DOE", seqL [rstrCI "Date", wsPlus, rstrCI "of", wsPlus, rstrCI "Expiry"],
              rstrCI "Expiry", seqL [rstrCI "Valid", wsPlus, rstrCI "Until"]],
        colonWsStar, .grp 1 monDateCore]

/-- (?:DOE|Date s+of s+Expiry|Expiry|Valid s+Until)[:s]*(numeric date) with i -/
def ppExpNumPat : RE := cnPatExpiry

/-- Nationality[:s]+(.+)$ with i -/
def natSamePat : RE := seqL [rstrCI "Nationality", colonWsPlus, .grp 1 dotPlus, .eos false]

/-- (?:Sur s*)?Name[:s]+(.+)$ with i -/
def surSamePat : RE :=
  seqL [.opt (seqL [rstrCI "Sur", wsStar]), rstrCI "Name", colonWsPlus, .grp 1 dotPlus,
        .eos false]

/-- Given s+Names?[:s]+(.+)$ with i -/
def givenSamePat : RE :=
  seqL [rstrCI "Given", wsPlus, rstrCI "Name", .opt (rstrCI "s"), colonWsPlus,
        .grp 1 dotPlus, .eos false]

/-- PASSPORT s+([A-Zs]{3,40}) with i -/
def passportNamePat : RE :=
  seqL [rstrCI "PASSPORT", wsPlus, .grp 1 (.rep alphaWsC 3 (some 40) false)]

/-- s+[a-z]s*$ with i -/
def junk1Pat : RE := seqL [wsPlus, .cls isAlphaC, wsStar, .eos false]

/-- s+[a-z]s+[a-z]s*$ with i -/
def junk2Pat : RE :=
  seqL [wsPlus, .cls isAlphaC, wsPlus, .cls isAlphaC, wsStar, .eos false]

/-- Place s+of s+Birth[:s]+(.+)$ with i -/
def placeSamePat : RE :=
  seqL [rstrCI "Place", wsPlus, rstrCI "of", wsPlus, rstrCI "Birth", colonWsPlus,
        .grp 1 dotPlus, .eos false]

/-- ([A-Zs]{3,20}),s*PAK with i -/
def placePakPat : RE :=
  seqL [.grp 1 (.rep alphaWsC 3 (some 20) false), rchar ',', wsStar, rstrCI "PAK"]

/-- Fy s+ with i -/
def fyPat : RE := seqL [rstrCI "Fy", wsPlus]

/-- Father s+Name[:s]+(.+)$ with i -/
def fatherSamePPat : RE :=
  seqL [rstrCI "Father", wsPlus, rstrCI "Name", colonWsPlus, .grp 1 dotPlus, .eos false]

/-- ^[A-Z][A-Zs,]{5,40}$ -/
def commaNamePat : RE :=
  seqL [.bos, .cls isUpperC, .rep (fun c => isUpperC c || isWsC c || c = ',') 5 (some 40) false,
        .eos false]

/-- ^[a-z]s+ with i -/
def leadSingleAlphaPat : RE := seqL [.bos, .cls isAlphaC, wsPlus]

/-- ^[a-z]{1,2}s+ with i -/
def lead12AlphaPat : RE := seqL [.bos, .rep isAlphaC 1 (some 2) false, wsPlus]

/-- Date s+of s+(?:Issue|Issuance)[:s]+(.+)$ with i -/
def doiSamePat : RE :=
  seqL [rstrCI "Date", wsPlus, rstrCI "of", wsPlus,
        altL [rstrCI "Issue", rstrCI "Issuance"], colonWsPlus, .grp 1 dotPlus, .eos false]

/-- Issuing s+Authority[:s]+(.+)$ with i -/
def authSamePat : RE :=
  seqL [rstrCI "Issuing", wsPlus, rstrCI "Authority", colonWsPlus, .grp 1 dotPlus, .eos false]

/-- Tracking s+Number[:s]+(.+)$ with i -/
def trackSamePat : RE :=
  seqL [rstrCI "Tracking", wsPlus, rstrCI "Number", colonWsPlus, .grp 1 dotPlus, .eos false]

/-- ^d+$ -/
def allDigitsPat : RE := seqL [.bos, .rep isDigitC 1 none false, .eos false]

/-- b(d{10,12})b -/
def trackLinePat : RE := seqL [.wb, .grp 1 (dRange 10 12), .wb]

/-- d{4}$ -/
def endsYearPat : RE := seqL [dd 4, .eos false]

/-- Citizenship s+Number[:s]+(.+)$ with i -/
def citSamePat : RE :=
  seqL [rstrCI "Citizenship", wsPlus, rstrCI "Number", colonWsPlus, .grp 1 dotPlus, .eos false]

/-- (?:DOI|Date s+of s+Issue|Date s+of s+Issuance|Issue)[:s]*(mon date) with i -/
def doiFallbackPat : RE :=
  seqL [altL [rstrCI "DOI", seqL [rstrCI "Date", wsPlus, rstrCI "of", wsPlus, rstrCI "Issue"],
              seqL [rstrCI "Date", wsPlus, rstrCI "of", wsPlus, rstrCI "Issuance"],
              rstrCI "Issue"],
        colonWsStar, .grp 1 monDateCore]

/-! ### Structured matchers for identifier patterns

The identifier regexes are given bespoke structured matchers so that
their digit decomposition is available to proofs; each mirrors its
regex step by step (optional separators are consumed when present,
which coincides with the backtracking semantics here because the
characters following a separator in the pattern are never
separators). -/

/-- Take exactly n digits. -/
def takeDigits : Nat → Str → Option (Str × Str)
  | 0, rest => some ([], rest)
  | _ + 1, [] => none
  | n + 1, c :: rest =>
    if isDigitC c then
      match takeDigits n rest with
      | some (d, r) => some (c :: d, r)
      | none => none
    else none

/-- Consume an optional single character satisfying p. -/
def takeOptC (p : Char → Bool) : Str → (Str × Str)
  | [] => ([], [])
  | c :: rest => if p c then ([c], rest) else ([], c :: rest)

/-- One attempt of (d{5}[-]?s?d{7}[-]?s?d{1}) at the head of s, the
CNIC pattern of extractCNICData; returns the matched text. -/
def cnicAt (s : Str) : Option Str :=
  match takeDigits 5 s with
  | none => none
  | some (d5, r1) =>
    let (s1, r2) := takeOptC (fun c => c = '-') r1
    let (s2, r3) := takeOptC isWsC r2
    match takeDigits 7 r3 with
    | none => none
    | some (d7, r4) =>
      let (s3, r5) := takeOptC (fun c => c = '-') r4
      let (s4, r6) := takeOptC isWsC r5
      match takeDigits 1 r6 with
      | none => none
      | some (d1, _) => some (d5 ++ s1 ++ s2 ++ d7 ++ s3 ++ s4 ++ d1)

/-- Leftmost match of the CNIC pattern. -/
def cnicScanGo : Nat → Str → Option Str
  | 0, _ => none
  | fuel + 1, s =>
    match cnicAt s with
    | some m => some m
    | none =>
      match s with
      | [] => none
      | _ :: rest => cnicScanGo fuel rest

def cnicScan (s : Str) : Option Str := cnicScanGo (s.length + 1) s

/-- One attempt of (d{5}-d{7}-d{1}) at the head of s. -/
def cnicDashedAt (s : Str) : Option Str :=
  match takeDigits 5 s with
  | none => none
  | some (d5, r1) =>
    match r1 with
    | [] => none
    | c1 :: r2 =>
      if c1 = '-' then
        match takeDigits 7 r2 with
        | none => none
        | some (d7, r3) =>
          match r3 with
          | [] => none
          | c2 :: r4 =>
            if c2 = '-' then
              match takeDigits 1 r4 with
              | none => none
              | some (d1, _) => some (d5 ++ '-' :: (d7 ++ '-' :: d1))
            else none
      else none

def cnicDashedScanGo : Nat → Str → Option Str
  | 0, _ => none
  | fuel + 1, s =>
    match cnicDashedAt s with
    | some m => some m
    | none =>
      match s with
      | [] => none
      | _ :: rest => cnicDashedScanGo fuel rest

/-- Leftmost match of (d{5}-d{7}-d{1}). -/
def cnicDashedScan (s : Str) : Option Str := cnicDashedScanGo (s.length + 1) s

/-- One attempt of b(d{13})b: the previous character is not a word
character, 13 digits follow, and the next character is not a word
character. -/
def digits13At (prevIsWord : Bool) (s : Str) : Option Str :=
  if prevIsWord then none
  else
    match takeDigits 13 s with
    | none => none
    | some (d, r) =>
      match r with
      | [] => some d
      | c :: _ => if isWordC c then none else some d

def digits13ScanGo : Nat → Bool → Str → Option Str
  | 0, _, _ => none
  | fuel + 1, prev, s =>
    match digits13At prev s with
    | some m => some m
    | none =>
      match s with
      | [] => none
      | c :: rest => digits13ScanGo fuel (isWordC c) rest

/-- Leftmost match of b(d{13})b. -/
def digits13Scan (s : Str) : Option Str := digits13ScanGo (s.length + 1) false s

/-- The 5-7-1 dash regrouping of a stripped identifier:
substring(0,5) - substring(5,12) - substring(12). -/
def cnicGroup (c : Str) : Str :=
  c.take 5 ++ '-' :: ((c.drop 5).take 7 ++ '-' :: c.drop 12)

/-- Remove whitespace and dashes, the replace(s,)(replace(-,)) step. -/
def stripWsDash (s : Str) : Str := s.filter (fun c => !(isWsC c || c = '-'))

/-! ### Data model

The records produced by the two extractors, with absent JS values as
none, and the generic JS-object view consumed by cleanData. -/

structure CNICData where
  name : Option Str
  fatherName : Option Str
  country : Option Str
  cnicNumber : Option Str
  dateOfBirth : Option Str
  dateOfIssue : Option Str
  dateOfExpiry : Option Str
  gender : Option Str
  address : Option Str
  rawText : Str
deriving Repr, DecidableEq

structure PassportData where
  passportNumber : Option Str
  surname : Option Str
  givenNames : Option Str
  nationality : Option Str
  dateOfBirth : Option Str
  placeOfBirth : Option Str
  gender : Option Str
  dateOfIssue : Option Str
  dateOfExpiry : Option Str
  issuingAuthority : Option Str
  husbandName : Option Str
  fatherName : Option Str
  citizenshipNumber : Option Str
  trackingNumber : Option Str
  rawText : Str
deriving Repr, DecidableEq

/-- A JS object as an ordered key-value list; a missing key is an
absent entry (undefined), a null value is (some none) in lookups and
(k, none) as an entry. -/
abbrev JSObj := List (String × Option Str)

def cnicAssoc (d : CNICData) : JSObj :=
  [("name", d.name), ("fatherName", d.fatherName), ("country", d.country),
   ("cnicNumber", d.cnicNumber), ("dateOfBirth", d.dateOfBirth),
   ("dateOfIssue", d.dateOfIssue), ("dateOfExpiry", d.dateOfExpiry),
   ("gender", d.gender), ("address", d.address), ("rawText", some d.rawText)]

def passportAssoc (d : PassportData) : JSObj :=
  [("passportNumber", d.passportNumber), ("surname", d.surname),
   ("givenNames", d.givenNames), ("nationality", d.nationality),
   ("dateOfBirth", d.dateOfBirth), ("placeOfBirth", d.placeOfBirth),
   ("gender", d.gender), ("dateOfIssue", d.dateOfIssue),
   ("dateOfExpiry", d.dateOfExpiry), ("issuingAuthority", d.issuingAuthority),
   ("husbandName", d.husbandName), ("fatherName", d.fatherName),
   ("citizenshipNumber", d.citizenshipNumber), ("trackingNumber", d.trackingNumber),
   ("rawText", some d.rawText)]

def lookupJS (o : JSObj) (k : String) : Option (Option Str) :=
  match o.find? (fun kv => kv.1 = k) with
  | some kv => some kv.2
  | none => none

def containsKeyJS (o : JSObj) (k : String) : Bool :=
  (o.find? (fun kv => kv.1 = k)).isSome

/-- The value is null or the empty string. -/
def emptyVal : Option Str → Bool
  | none => true
  | some s => s.isEmpty

def cnicRequiredFields : List String := ["name", "fatherName", "country", "cnicNumber"]

def passportRequiredFields : List String :=
  ["passportNumber", "surname", "givenNames", "nationality", "fatherName",
   "dateOfIssue", "issuingAuthority", "trackingNumber", "husbandName",
   "citizenshipNumber"]

/-- DataExtractor.cleanData: drop null or empty non-required fields,
keep required fields and add them as null when missing. -/
def cleanData (data : JSObj) : JSObj :=
  let isPassport := containsKeyJS data "passportNumber" || containsKeyJS data "surname"
  let requiredFields := if isPassport then passportRequiredFields else cnicRequiredFields
  let kept := data.filter (fun kv => !(emptyVal kv.2) || requiredFields.contains kv.1)
  kept ++ (requiredFields.filter (fun f => !(containsKeyJS kept f))).map (fun f => (f, none))

/-! ### extractCNICData -/

def collapseWsOnly (s : Str) : Str := collapseWs false s

def excludeKeywords : List String :=
  ["PAKISTAN", "PAK", "NATIONAL", "IDENTITY", "CARD", "ISLAMIC", "REPUBLIC",
   "CNIC", "MALE", "FEMALE", "GENDER", "COUNTRY", "DATE", "BIRTH", "ISSUE",
   "EXPIRY", "ADDRESS", "HOLDER", "SIGNATURE", "STAY", "OF", "NUMBER"]

/-- The CNIC number block: first match of the CNIC pattern on the
normalized text, separator-stripped and regrouped when 13 digits. -/
def cnicNumberOf (normalizedText : Str) : Option Str :=
  match cnicScan normalizedText with
  | none => none
  | some m =>
    let cnic := stripWsDash m
    if cnic.length = 13 then some (cnicGroup cnic) else some m

/-- The generic label loop of the extractors: per matching line, an
unguarded same-line attempt (assign and break on success), then a
next-line attempt guarded by the value being still unset; the line
and the following line are trimmed as in the source. -/
def labelLoopCur (cond : Str → Bool) (sameL : Str → Option Str)
    (nextL : Str → Option Str) : Option Str → List Str → Option Str
  | cur, [] => cur
  | cur, line0 :: rest =>
    let line := trimL line0
    if cond (upper line) then
      match sameL line with
      | some v => some v
      | none =>
        if cur.isNone then
          match rest.head? with
          | some nxt =>
            match nextL (trimL nxt) with
            | some v => some v
            | none => labelLoopCur cond sameL nextL cur rest
          | none => labelLoopCur cond sameL nextL cur rest
        else labelLoopCur cond sameL nextL cur rest
    else labelLoopCur cond sameL nextL cur rest

/-- First line on which the candidate function succeeds. -/
def scanLines (f : Str → Option Str) : List Str → Option Str
  | [] => none
  | l :: rest =>
    match f (trimL l) with
    | some v => some v
    | none => scanLines f rest

def cnicNameCond (lu : Str) : Bool :=
  hasKw lu "NAME" && !hasKw lu "FATHER" && !hasKw lu "HUSBAND"

def cnicNameSame (line : Str) : Option Str :=
  match reMatch1 nameSameLinePat line with
  | none => none
  | some raw =>
    let name := collapseWsOnly (trimL raw)
    let nameUpper := upper name
    let containsExcluded := excludeKeywords.any (fun kw =>
      nameUpper = strL kw || startsWithL nameUpper (strL kw ++ [' ']) ||
      endsWithL nameUpper (' ' :: strL kw))
    let isAnotherLabel := reTest nameLabelPat nameUpper
    if name.length ≥ 2 && !reTest startsDigitPat name && !containsExcluded &&
        !isAnotherLabel then
      some (upper name)
    else none

def cnicNameNext (next : Str) : Option Str :=
  let name := collapseWsOnly (trimL next)
  let nameUpper := upper name
  let containsExcluded := excludeKeywords.any (fun kw =>
    nameUpper = strL kw || (nameUpper.length < 20 && containsSub nameUpper (strL kw)))
  if name.length ≥ 2 && !reTest startsDigitPat name && !containsExcluded &&
      !reTest nameNextLabelPat nameUpper then
    some (upper name)
  else none

/-- The name fallback: last header line among the first five, then a
five-line window scan for a name-like line. -/
def cnicNameFallback (lines : List Str) : Option Str :=
  let headerEnd := (lines.take 5).enum.foldl
    (fun acc p =>
      let lu := upper p.2
      if hasKw lu "PAKISTAN" || hasKw lu "IDENTITY" || hasKw lu "CARD" then some p.1 else acc)
    none
  let startIndex := match headerEnd with
    | some i => i + 1
    | none => 1
  scanLines
    (fun line =>
      let lu := upper line
      let containsExcluded := excludeKeywords.any (fun kw =>
        containsSub lu (strL kw) && lu.length < 30)
      let isLabel := reTest nameNextLabelPat lu
      let hasNumbers := reTest digits5Pat line
      let wordCount := (splitWsL line).length
      let isNameLike := 1 ≤ wordCount && wordCount ≤ 4 && 3 ≤ line.length &&
        line.length ≤ 30 && !reTest startsDigitPat line && !containsExcluded &&
        !isLabel && !hasNumbers
      if isNameLike then some (upper (trimL (collapseWsOnly line))) else none)
    ((lines.drop startIndex).take 5)

def cnicFatherCond (lu : Str) : Bool :=
  (hasKw lu "FATHER" && hasKw lu "NAME") || (hasKw lu "HUSBAND" && hasKw lu "NAME") ||
  hasKw lu "S/O" || hasKw lu "D/O" || hasKw lu "W/O"

def cnicFatherSame (nm : Option Str) (line : Str) : Option Str :=
  match reMatch1 fatherSameLinePat line with
  | none => none
  | some raw =>
    let fatherName := collapseWsOnly (trimL raw)
    let fatherNameUpper := upper fatherName
    let containsExcluded := excludeKeywords.any (fun kw =>
      fatherNameUpper = strL kw || startsWithL fatherNameUpper (strL kw ++ [' ']) ||
      endsWithL fatherNameUpper (' ' :: strL kw))
    let isAnotherLabel := reTest fatherLabelPat fatherNameUpper
    if fatherName.length ≥ 2 && !reTest startsDigitPat fatherName && !containsExcluded &&
        !isAnotherLabel then
      match nm with
      | none => some (upper fatherName)
      | some n => if upper fatherName ≠ upper n then some (upper fatherName) else none
    else none

def cnicFatherNext (nm : Option Str) (next : Str) : Option Str :=
  let fatherName := collapseWsOnly (trimL next)
  let fatherNameUpper := upper fatherName
  let containsExcluded := excludeKeywords.any (fun kw =>
    fatherNameUpper = strL kw ||
    (fatherNameUpper.length < 20 && containsSub fatherNameUpper (strL kw)))
  if fatherName.length ≥ 2 && !reTest startsDigitPat fatherName && !containsExcluded &&
      !reTest fatherNextLabelPat fatherNameUpper then
    match nm with
    | none => some (upper fatherName)
    | some n => if upper fatherName ≠ upper n then some (upper fatherName) else none
  else none

def hasTripleRepeat : Str → Bool
  | a :: b :: c :: rest => (dotC a && a = b && b = c) || hasTripleRepeat (b :: c :: rest)
  | _ => false

/-- The father-name fallback: anchor after the found name line, skip a
couple of lines, then a six-line window scan with the stricter
name-likeness test; the 0.6 letter-ratio test is the exact rational
form of the JS float comparison, which agrees on these line lengths. -/
def cnicFatherFallback (nm : Str) (lines : List Str) : Option Str :=
  let nu := upper nm
  let nameLineIndex := (lines.enum.find? (fun p =>
    let lu := upper p.2
    containsSub lu nu || containsSub nu lu ||
    (nu.length > 5 && containsSub (lu.take nu.length) (nu.take 5)))).map (fun p => p.1)
  let startIndex := match nameLineIndex with
    | some i => i + 2
    | none => 3
  scanLines
    (fun line =>
      if line.length < 6 then none
      else if reTest onlySpecialPat line then none
      else
        let lu := upper line
        let containsExcluded := excludeKeywords.any (fun kw =>
          containsSub lu (strL kw) && lu.length < 30)
        let isLabel := reTest fatherNextLabelPat lu
        let hasNumbers := reTest digits5Pat line
        let letterCount := (line.filter isAlphaC).length
        let hasEnoughLetters := 10 * letterCount ≥ 6 * line.length
        let hasSuspiciousPattern := hasTripleRepeat line
        let words := (splitWsL line).filter (fun w => w.length > 0)
        let hasProperNameWord := words.any (fun w => (w.filter isAlphaC).length ≥ 3)
        let wordCount := words.length
        let isFatherNameLike := 1 ≤ wordCount && wordCount ≤ 4 && 8 ≤ line.length &&
          line.length ≤ 35 && !reTest startsDigitPat line && !containsExcluded &&
          !isLabel && !hasNumbers && hasEnoughLetters && !reTest leadSpecialPat line &&
          !reTest leadNonAlpha2Pat line && !hasSuspiciousPattern && hasProperNameWord
        if isFatherNameLike then
          if upper line ≠ nu then
            let c1 := trimL (collapseWsOnly line)
            let c2 := trimL (replFirst trailJunkPat (fun _ _ => []) c1)
            let c3 := trimL (replFirst leadJunkPat (fun _ _ => []) c2)
            if c3.length ≥ 8 && reTest alpha3Pat c3 then some (upper c3) else none
          else none
        else none)
    ((lines.drop startIndex).take 6)

def countryKeywords : List String :=
  ["PAKISTAN", "PAK", "USA", "UNITED STATES", "UNITED STATES OF AMERICA", "UK",
   "UNITED KINGDOM", "CANADA", "AUSTRALIA", "INDIA", "CHINA", "GERMANY", "FRANCE",
   "ITALY", "SPAIN", "SAUDI ARABIA", "UAE", "UNITED ARAB EMIRATES", "BANGLADESH",
   "SRI LANKA", "AFGHANISTAN", "IRAN", "TURKEY", "EGYPT", "JAPAN", "SOUTH KOREA",
   "THAILAND", "MALAYSIA", "INDONESIA", "SINGAPORE", "PHILIPPINES", "VIETNAM"]

def normCountry (kw : String) : Str :=
  if kw = "PAK" then strL "PAKISTAN"
  else if kw = "USA" || kw = "US" then strL "UNITED STATES"
  else if kw = "UK" then strL "UNITED KINGDOM"
  else if kw = "UAE" then strL "UNITED ARAB EMIRATES"
  else strL kw

def cnicCountryKw (text : Str) : Option Str :=
  match countryKeywords.find? (fun kw => reTest (kwRE kw) text) with
  | some kw => some (normCountry kw)
  | none => none

def cnicCountryPatternsGo (text : Str) : List RE → Option Str
  | [] => none
  | p :: rest =>
    match reMatch1 p text with
    | some m1 =>
      let country := upper (trimL m1)
      match countryKeywords.find? (fun kw =>
          containsSub country (strL kw) || containsSub (strL kw) country ||
          containsSub (collapseWsOnly country) (collapseWsOnly (strL kw))) with
      | some kw => some (normCountry kw)
      | none =>
        if country.length ≥ 3 && !reTest startsDigitPat country then some country
        else cnicCountryPatternsGo text rest
    | none => cnicCountryPatternsGo text rest

def cnicCountryPatterns (text : Str) : Option Str :=
  cnicCountryPatternsGo text [countryPat1, countryPat2]

def cnicCountryLastResort (text : Str) : Option Str :=
  if reTest pakWordPat text then some (strL "PAKISTAN")
  else if reTest pakShortPat text && !reTest pakAnyPat text then some (strL "PAKISTAN")
  else none

def cnInit (text : Str) : CNICData :=
  { name := none, fatherName := none, country := none, cnicNumber := none,
    dateOfBirth := none, dateOfIssue := none, dateOfExpiry := none, gender := none,
    address := none, rawText := text }

def cnNumberStep (nt : Str) (d : CNICData) : CNICData :=
  { d with cnicNumber := cnicNumberOf nt }

def cnDobStep (nt : Str) (d : CNICData) : CNICData :=
  let dates := reMatchAll cnPatDate nt
  { d with dateOfBirth :=
      (match reMatch1 cnPatDob nt with
       | some v => some v
       | none => if dates.length ≥ 1 then dates.get? 0 else none) }

def cnDoiStep (nt : Str) (d : CNICData) : CNICData :=
  let dates := reMatchAll cnPatDate nt
  { d with dateOfIssue :=
      (match reMatch1 cnPatIssue nt with
       | some v => some v
       | none => if dates.length ≥ 2 then dates.get? 1 else none) }

def cnDoeStep (nt : Str) (d : CNICData) : CNICData :=
  let dates := reMatchAll cnPatDate nt
  { d with dateOfExpiry :=
      (match reMatch1 cnPatExpiry nt with
       | some v => some v
       | none => if dates.length ≥ 3 then dates.get? 2 else none) }

def cnGenderStep (nt : Str) (d : CNICData) : CNICData :=
  { d with gender := (reMatch1 genderPat nt).map upper }

def cnNameStep (lines : List Str) (d : CNICData) : CNICData :=
  { d with name := labelLoopCur cnicNameCond cnicNameSame cnicNameNext none lines }

def cnNameFbStep (lines : List Str) (d : CNICData) : CNICData :=
  if d.name.isNone && lines.length > 1 then { d with name := cnicNameFallback lines }
  else d

def cnFatherStep (lines : List Str) (d : CNICData) : CNICData :=
  { d with fatherName :=
      labelLoopCur cnicFatherCond (cnicFatherSame d.name) (cnicFatherNext d.name) none lines }

def cnFatherFbStep (lines : List Str) (d : CNICData) : CNICData :=
  if d.fatherName.isNone then
    match d.name with
    | some nm =>
      if lines.length > 2 then { d with fatherName := cnicFatherFallback nm lines } else d
    | none => d
  else d

def cnCountryStep (text : Str) (d : CNICData) : CNICData :=
  let d := { d with country := cnicCountryKw text }
  let d := if d.country.isNone then { d with country := cnicCountryPatterns text } else d
  if d.country.isNone then { d with country := cnicCountryLastResort text } else d

def cnAddressStep (nt : Str) (d : CNICData) : CNICData :=
  { d with address := (reMatch1 addressPat nt).map trimL }

def extractCNICData (text : Str) : CNICData :=
  let nt := normalizeJS text
  let lines := ((splitLinesJS text).map trimL).filter (fun l => l.length > 0)
  cnAddressStep nt
    (cnCountryStep text
      (cnFatherFbStep lines
        (cnFatherStep lines
          (cnNameFbStep lines
            (cnNameStep lines
              (cnGenderStep nt
                (cnDoeStep nt
                  (cnDoiStep nt
                    (cnDobStep nt
                      (cnNumberStep nt (cnInit text)))))))))))

/-! ### extractPassportData -/

structure MRZData where
  passportNumber : Option Str
  surname : Option Str
  givenNames : Option Str
  nationality : Option Str
  dateOfBirth : Option Str
  gender : Option Str
  dateOfExpiry : Option Str
  issuingAuthority : Option Str
  citizenshipNumber : Option Str
deriving Repr, DecidableEq

/-- JS truthiness of a string-or-null value. -/
def truthyS : Option Str → Bool
  | some s => !s.isEmpty
  | none => false

/-- The MRZ merge block at the head of extractPassportData: each
truthy MRZ field overwrites the initial null. -/
def applyMrz (d : PassportData) (m : MRZData) : PassportData :=
  let d := if truthyS m.passportNumber then { d with passportNumber := m.passportNumber } else d
  let d := if truthyS m.surname then { d with surname := m.surname } else d
  let d := if truthyS m.givenNames then { d with givenNames := m.givenNames } else d
  let d := if truthyS m.nationality then { d with nationality := m.nationality } else d
  let d := if truthyS m.dateOfBirth then { d with dateOfBirth := m.dateOfBirth } else d
  let d := if truthyS m.gender then { d with gender := m.gender } else d
  let d := if truthyS m.dateOfExpiry then { d with dateOfExpiry := m.dateOfExpiry } else d
  let d := if truthyS m.citizenshipNumber then { d with citizenshipNumber := m.citizenshipNumber } else d
  d

def ppnCond (lu : Str) : Bool := hasKw lu "PASSPORT" && hasKw lu "NUMBER"

def ppnSame (line : Str) : Option Str :=
  match reMatch1 ppnSamePat line with
  | none => none
  | some raw =>
    let pn := trimL raw
    if pn.length ≥ 6 && pn.length ≤ 12 then some (upper pn) else none

def ppnNext (next : Str) : Option Str :=
  if next.length ≥ 6 && next.length ≤ 12 && reTest upAlnumPat next then some (upper next)
  else none

def ppnLineFallback : List Str → Option Str :=
  scanLines (fun line => (reMatchN ppnLinePat line 1).map upper)

def ppDobCond (lu : Str) : Bool := hasKw lu "DATE" && hasKw lu "BIRTH"

def ppDobSame (line : Str) : Option Str :=
  match reMatch1 dobSamePat line with
  | none => none
  | some raw =>
    let d := trimL raw
    if reTest digitAnyPat d then some (upper d) else none

def ppDobNext (next : Str) : Option Str :=
  if reTest digitAnyPat next then some (upper next) else none

def padStart2 (s : Str) : Str := List.replicate (2 - s.length) '0' ++ s

/-- The OCR day fixes of the line-based date fallbacks. -/
def fixDay (dflt : Str) (day0 : Str) : Str :=
  let dayLower := lower day0
  let d1 :=
    if dayLower = strL "lo" || dayLower = strL "io" || dayLower = strL "1o" then strL "10"
    else day0
  let d2 := if dayLower = strL "o1" || dayLower = strL "01" then strL "01" else d1
  let d3 := if dayLower = strL "o2" || dayLower = strL "02" then strL "02" else d2
  if reTest dayPat d3 then d3
  else
    match d3.find? isDigitC with
    | some c => padStart2 [c]
    | none => dflt

/-- The month-name date fallback for the birth date: the line must
also carry a dashed or 13-digit identifier. -/
def ppDobLineFb (line : Str) : Option Str :=
  match reFind dobLineFallbackPat line with
  | none => none
  | some (_, _, caps) =>
    if reTest cnicDashedCore line || reTest digits13Pat line then
      let day := fixDay (strL "10") (capSlice line caps 1)
      let month := upper (capSlice line caps 2)
      let year := capSlice line caps 3
      some (padStart2 day ++ ' ' :: (month ++ ' ' :: year))
    else none

def ppDoeCond (lu : Str) : Bool :=
  hasKw lu "DATE" && (hasKw lu "EXPIRY" || hasKw lu "EXPIR")

def ppDoeSame (line : Str) : Option Str :=
  match reMatch1 doeSamePat line with
  | none => none
  | some raw =>
    let d := trimL raw
    if reTest digitAnyPat d then some (upper d) else none

def ppDoeNext (next : Str) : Option Str :=
  if reTest digitAnyPat next then some (upper next) else none

/-- The month-name date fallback for the expiry date: not a birth
line, and the line must carry a 10 to 12 digit run. -/
def ppDoeLineFb (line : Str) : Option Str :=
  match reFind doeLineFallbackPat line with
  | none => none
  | some (_, _, caps) =>
    if hasKw (upper line) "BIRTH" then none
    else if reTest digits10to12Pat line then
      let day := fixDay (strL "01") (capSlice line caps 1)
      let month := upper (capSlice line caps 2)
      let year := capSlice line caps 3
      some (padStart2 day ++ ' ' :: (month ++ ' ' :: year))
    else none

/-- The dates the whole-text block collects: both date shapes in
pattern order. -/
def ppDatesOf (nt : Str) : List Str :=
  reMatchAll ppDateMonPat nt ++ reMatchAll ppDateNumPat nt

def ppDatesDobLabel (nt : Str) (d : PassportData) : PassportData :=
  if d.dateOfBirth.isNone then
    match reMatch1 ppDobMonPat nt with
    | some v => { d with dateOfBirth := some (trimL v) }
    | none =>
      match reMatch1 ppDobNumPat nt with
      | some v => { d with dateOfBirth := some (trimL v) }
      | none => d
  else d

def ppDatesDobOrdinal (dates : List Str) (d : PassportData) : PassportData :=
  if d.dateOfBirth.isNone && dates.length ≥ 1 then { d with dateOfBirth := dates.get? 0 }
  else d

def ppDatesDoeLabel (nt : Str) (d : PassportData) : PassportData :=
  if d.dateOfExpiry.isNone then
    match reMatch1 ppExpMonPat nt with
    | some v => { d with dateOfExpiry := some (trimL v) }
    | none =>
      match reMatch1 ppExpNumPat nt with
      | some v => { d with dateOfExpiry := some (trimL v) }
      | none => d
  else d

def ppDatesDoeOrdinal (dates : List Str) (d : PassportData) : PassportData :=
  if d.dateOfExpiry.isNone && dates.length ≥ 2 then { d with dateOfExpiry := dates.get? 1 }
  else d

/-- The whole-text date block: label-qualified matches first, then
ordinal assignment of the first date to the birth date and the second
to the expiry date. -/
def ppDatesBlock (d : PassportData) (nt : Str) : PassportData :=
  if d.dateOfBirth.isNone || d.dateOfExpiry.isNone then
    ppDatesDoeOrdinal (ppDatesOf nt)
      (ppDatesDoeLabel nt (ppDatesDobOrdinal (ppDatesOf nt) (ppDatesDobLabel nt d)))
  else d

def natCond (lu : Str) : Bool := hasKw lu "NATIONALITY" && !hasKw lu "NUMBER"

def natSame (line : Str) : Option Str :=
  match reMatch1 natSamePat line with
  | none => none
  | some raw =>
    let n := trimL raw
    if n.length ≥ 3 then some (upper n) else none

def natNext (next : Str) : Option Str :=
  if next.length ≥ 3 && !reTest startsDigitPat next then some (upper next) else none

def natFallback : List Str → Option Str :=
  scanLines (fun l => if hasKw (upper l) "PAKISTANI" then some (strL "PAKISTANI") else none)

def surCond (lu : Str) : Bool :=
  (hasKw lu "SURNAME" || hasKw lu "SUR NAME") && !hasKw lu "GIVEN"

def surSame (line : Str) : Option Str :=
  match reMatch1 surSamePat line with
  | none => none
  | some raw =>
    let s := trimL raw
    if s.length ≥ 2 && !reTest startsDigitPat s then some (upper s) else none

def surNext (next : Str) : Option Str :=
  if next.length ≥ 2 && !reTest startsDigitPat next && !hasKw (upper next) "GIVEN" then
    some (upper next)
  else none

def givenCond (lu : Str) : Bool := hasKw lu "GIVEN" && hasKw lu "NAME"

def givenSame (line : Str) : Option Str :=
  match reMatch1 givenSamePat line with
  | none => none
  | some raw =>
    let g := collapseWsOnly (trimL raw)
    if g.length ≥ 2 && !reTest startsDigitPat g then some (upper g) else none

def givenNext (next : Str) : Option Str :=
  let g := collapseWsOnly next
  if g.length ≥ 2 && !reTest startsDigitPat g && !hasKw (upper g) "NATIONALITY" then
    some (upper g)
  else none

def givenFallback : List Str → Option Str :=
  scanLines (fun line =>
    let lu := upper line
    if hasKw lu "PASSPORT" && !hasKw lu "NUMBER" then
      match reMatch1 passportNamePat line with
      | some m1 =>
        let g1 := trimL m1
        let g2 := trimL (replFirst junk1Pat (fun _ _ => []) g1)
        let g3 := trimL (replFirst junk2Pat (fun _ _ => []) g2)
        let g4 := collapseWsOnly g3
        let gu := upper g4
        if g4.length ≥ 3 && !containsSub gu (strL "PAKISTAN") &&
            !containsSub gu (strL "NUMBER") && (splitWsL g4).length ≥ 1 &&
            (splitWsL g4).length ≤ 4 then
          some (upper g4)
        else none
      | none => none
    else none)

def placeCond (lu : Str) : Bool := hasKw lu "PLACE" && hasKw lu "BIRTH"

def placeSame (line : Str) : Option Str :=
  match reMatch1 placeSamePat line with
  | none => none
  | some raw =>
    let p := trimL raw
    if p.length ≥ 3 then some (upper p) else none

def placeNext (next : Str) : Option Str :=
  if next.length ≥ 3 then some (upper next) else none

def placeFallback : List Str → Option Str :=
  scanLines (fun line =>
    match reMatch1 placePakPat line with
    | some m1 =>
      let p0 := trimL m1
      let p1 := replFirst fyPat (fun _ _ => []) p0
      if 3 ≤ p1.length && p1.length ≤ 30 then some (upper p1 ++ strL ", PAK") else none
    | none => none)

def pfCond (lu : Str) : Bool :=
  (hasKw lu "FATHER" && hasKw lu "NAME") || (hasKw lu "FATHER" && !hasKw lu "HUSBAND")

def pfSame (line : Str) : Option Str :=
  match reMatch1 fatherSamePPat line with
  | none => none
  | some raw =>
    let f := collapseWsOnly (trimL raw)
    if f.length ≥ 2 && !reTest startsDigitPat f then some (upper f) else none

def pfNext (next : Str) : Option Str :=
  let f := collapseWsOnly next
  if f.length ≥ 2 && !reTest startsDigitPat f then some (upper f) else none

/-- Exactly one comma, the split-on-comma length-two test. -/
def pfFallback : List Str → Option Str :=
  scanLines (fun line =>
    let lu := upper line
    if containsSub line [','] && reTest commaNamePat line && !hasKw lu "PAKISTAN" &&
        !hasKw lu "SIALKOT" && !hasKw lu "LAHORE" && !hasKw lu "KARACHI" &&
        (line.filter (fun c => c = ',')).length = 1 then
      let f1 := trimL (replFirst leadSingleAlphaPat (fun _ _ => []) line)
      let f2 := trimL (replFirst lead12AlphaPat (fun _ _ => []) f1)
      let f3 := collapseWsOnly f2
      if containsSub f3 [','] && 5 ≤ f3.length && f3.length ≤ 50 then some (upper f3)
      else none
    else none)

def doiCond (lu : Str) : Bool :=
  (hasKw lu "DATE" && hasKw lu "ISSUE") || (hasKw lu "DATE" && hasKw lu "ISSUANCE")

def doiSame (line : Str) : Option Str :=
  match reMatch1 doiSamePat line with
  | none => none
  | some raw =>
    let d := trimL raw
    if reTest digitAnyPat d then some (upper d) else none

def doiNext (next : Str) : Option Str :=
  if reTest digitAnyPat next then some (upper next) else none

def authCond (lu : Str) : Bool := hasKw lu "ISSUING" && hasKw lu "AUTHORITY"

def authSame (line : Str) : Option Str :=
  match reMatch1 authSamePat line with
  | none => none
  | some raw =>
    let a := trimL raw
    if a.length ≥ 3 then some (upper a) else none

def authNext (next : Str) : Option Str :=
  if next.length ≥ 3 && !reTest startsDigitPat next then some (upper next) else none

/-- The issuing-authority fallback carries the line index: beyond the
sixth line the PAKISTAN keyword alone suffices. -/
def authFallback : Nat → List Str → Option Str
  | _, [] => none
  | i, l :: rest =>
    let lu := upper l
    if hasKw lu "PAKISTAN" && (hasKw lu "AUTHORITY" || hasKw lu "ISSUING" || i > 5) then
      some (strL "PAKISTAN")
    else authFallback (i + 1) rest

def trackCond (lu : Str) : Bool := hasKw lu "TRACKING" && hasKw lu "NUMBER"

def trackSame (line : Str) : Option Str :=
  match reMatch1 trackSamePat line with
  | none => none
  | some raw =>
    let t := trimL raw
    if t.length ≥ 5 then some t else none

def trackNext (next : Str) : Option Str :=
  if next.length ≥ 5 && reTest allDigitsPat next then some next else none

def trackFallback : List Str → Option Str :=
  scanLines (fun line =>
    match reMatchN trackLinePat line 1 with
    | some num =>
      if !reTest endsYearPat num || (num.length = 11 && !reTest cnicDashedCore num) then
        some num
      else none
    | none => none)

def citCond (lu : Str) : Bool := hasKw lu "CITIZENSHIP" && hasKw lu "NUMBER"

def citSame (line : Str) : Option Str :=
  match reMatch1 citSamePat line with
  | none => none
  | some raw =>
    let c := trimL raw
    if reTest digitAnyPat c then some c else none

def citNext (next : Str) : Option Str :=
  if reTest digitAnyPat next then some next else none

def citFallback : List Str → Option Str :=
  scanLines (fun line =>
    match cnicDashedScan line with
    | some m => some m
    | none =>
      match digits13Scan line with
      | some ds => some (cnicGroup ds)
      | none => none)

def ppInit (text : Str) : PassportData :=
  { passportNumber := none, surname := none, givenNames := none, nationality := none,
    dateOfBirth := none, placeOfBirth := none, gender := none, dateOfIssue := none,
    dateOfExpiry := none, issuingAuthority := none, husbandName := none,
    fatherName := none, citizenshipNumber := none, trackingNumber := none,
    rawText := text }

def ppMrzStep (mrzData : Option MRZData) (d : PassportData) : PassportData :=
  match mrzData with
  | some m => applyMrz d m
  | none => d

def ppPassportNumberStep (lines : List Str) (nt : Str) (d : PassportData) : PassportData :=
  let d := { d with passportNumber := labelLoopCur ppnCond ppnSame ppnNext d.passportNumber lines }
  if d.passportNumber.isNone then
    match (reMatch1 ppnPatternPat nt).map upper with
    | some v => { d with passportNumber := some v }
    | none =>
      match ppnLineFallback lines with
      | some v => { d with passportNumber := some v }
      | none => d
  else d

def ppDobStep (lines : List Str) (d : PassportData) : PassportData :=
  let d := { d with dateOfBirth := labelLoopCur ppDobCond ppDobSame ppDobNext d.dateOfBirth lines }
  if d.dateOfBirth.isNone then
    match scanLines ppDobLineFb lines with
    | some v => { d with dateOfBirth := some v }
    | none => d
  else d

def ppDoeStep (lines : List Str) (d : PassportData) : PassportData :=
  let d := { d with dateOfExpiry := labelLoopCur ppDoeCond ppDoeSame ppDoeNext d.dateOfExpiry lines }
  if d.dateOfExpiry.isNone then
    match scanLines ppDoeLineFb lines with
    | some v => { d with dateOfExpiry := some v }
    | none => d
  else d

def ppGenderStep (nt : Str) (d : PassportData) : PassportData :=
  match reMatch1 genderPat nt with
  | some g => { d with gender := some (upper g) }
  | none => d

def ppNationalityStep (lines : List Str) (d : PassportData) : PassportData :=
  let d := { d with nationality := labelLoopCur natCond natSame natNext d.nationality lines }
  if d.nationality.isNone then
    match natFallback lines with
    | some v => { d with nationality := some v }
    | none => d
  else d

def ppSurnameStep (lines : List Str) (d : PassportData) : PassportData :=
  { d with surname := labelLoopCur surCond surSame surNext d.surname lines }

def ppGivenStep (lines : List Str) (d : PassportData) : PassportData :=
  let d := { d with givenNames := labelLoopCur givenCond givenSame givenNext d.givenNames lines }
  if d.givenNames.isNone then
    match givenFallback lines with
    | some v => { d with givenNames := some v }
    | none => d
  else d

def ppPlaceStep (lines : List Str) (d : PassportData) : PassportData :=
  let d := { d with placeOfBirth := labelLoopCur placeCond placeSame placeNext d.placeOfBirth lines }
  if d.placeOfBirth.isNone then
    match placeFallback lines with
    | some v => { d with placeOfBirth := some v }
    | none => d
  else d

def ppFatherStep (lines : List Str) (d : PassportData) : PassportData :=
  let d := { d with fatherName := labelLoopCur pfCond pfSame pfNext d.fatherName lines }
  if d.fatherName.isNone then
    match pfFallback lines with
    | some v => { d with fatherName := some v }
    | none => d
  else d

def ppDoiStep (lines : List Str) (d : PassportData) : PassportData :=
  { d with dateOfIssue := labelLoopCur doiCond doiSame doiNext d.dateOfIssue lines }

def ppAuthStep (lines : List Str) (d : PassportData) : PassportData :=
  let d := { d with issuingAuthority := labelLoopCur authCond authSame authNext d.issuingAuthority lines }
  if d.issuingAuthority.isNone then
    match authFallback 0 lines with
    | some v => { d with issuingAuthority := some v }
    | none => d
  else d

def ppTrackStep (lines : List Str) (d : PassportData) : PassportData :=
  let d := { d with trackingNumber := labelLoopCur trackCond trackSame trackNext d.trackingNumber lines }
  if d.trackingNumber.isNone then
    match trackFallback lines with
    | some v => { d with trackingNumber := some v }
    | none => d
  else d

def ppCitStep (lines : List Str) (d : PassportData) : PassportData :=
  let d := { d with citizenshipNumber := labelLoopCur citCond citSame citNext d.citizenshipNumber lines }
  if d.citizenshipNumber.isNone then
    match citFallback lines with
    | some v => { d with citizenshipNumber := some v }
    | none => d
  else d

def ppDoiFallbackStep (nt : Str) (d : PassportData) : PassportData :=
  if d.dateOfIssue.isNone then
    match reMatch1 doiFallbackPat nt with
    | some v => { d with dateOfIssue := some (trimL v) }
    | none => d
  else d

/-- The lines of a text, trimmed and nonempty. -/
def linesOf (text : Str) : List Str :=
  ((splitLinesJS text).map trimL).filter (fun l => l.length > 0)

def extractPassportData (text : Str) (mrzData : Option MRZData) : PassportData :=
  let nt := normalizeJS text
  let lines := linesOf text
  ppDoiFallbackStep nt
    (ppCitStep lines
      (ppTrackStep lines
        (ppAuthStep lines
          (ppDoiStep lines
            (ppFatherStep lines
              (ppPlaceStep lines
                (ppGivenStep lines
                  (ppSurnameStep lines
                    (ppNationalityStep lines
                      (ppGenderStep nt
                        (ppDatesBlock
                          (ppDoeStep lines
                            (ppDobStep lines
                              (ppPassportNumberStep lines nt
                                (ppMrzStep mrzData (ppInit text)))))
                          nt)))))))))))

/-! ### The passport route: MRZ candidate detection and normalization

The per-line acceptance and normalization logic of the MRZ block of
the passport route. -/

/-- Artifact removal: pipes, the vo and peor prefixes, all spaces. -/
def mrzArtifactClean (line : Str) : Str :=
  let l := replAll (rchar '|') (fun _ _ => []) line
  let l := replAll (seqL [rstrCI "vo", wsStar]) (fun _ _ => []) l
  let l := replAll (seqL [rstrCI "peor", wsStar]) (fun _ _ => []) l
  replAll (.cls isWsC) (fun _ _ => []) l

/-- PSPAK|P<PAK|AAd+|PAKd{6}[MF]|CLL|LLL -/
def mrzSigPat : RE :=
  altL [rstr "PSPAK", rstr "P<PAK", seqL [rstr "AA", .rep isDigitC 1 none false],
        seqL [rstr "PAK", dd 6, .cls (fun c => c = 'M' || c = 'F')], rstr "CLL", rstr "LLL"]

def hasMRZPattern (line : Str) : Bool :=
  reTest mrzSigPat line ||
  (line.length ≥ 20 && (containsSub line (strL "PAK") || containsSub line (strL "<<")))

def mrzCharC (c : Char) : Bool := isUpperC c || isDigitC c || c = '<'

/-- The ordered OCR-error substitution chain of the route. -/
def mrzCleanLine (line : Str) : Str :=
  let l := replAll (.cls (fun c => !mrzCharC c)) (fun _ _ => []) line
  let l := replAll (rstr "PS") (fun _ _ => strL "P<") l
  let l := replAll (seqL [.bos, rstr "P", .grp 1 (.cls isUpperC)])
    (fun s caps => strL "P<" ++ capSlice s caps 1) l
  let l := replAll (rstr "CLL") (fun _ _ => strL "<") l
  let l := replAll (rstr "LLL") (fun _ _ => strL "<") l
  let l := replAll (rstr "LL") (fun _ _ => strL "<") l
  let l := replAll (seqL [.grp 1 (.cls isUpperC), rstr "K", .grp 2 (.cls isUpperC)])
    (fun s caps => capSlice s caps 1 ++ '<' :: capSlice s caps 2) l
  let l := replAll (rstr "K<<<") (fun _ _ => strL "<<<") l
  let l := replAll (rstr "K<<") (fun _ _ => strL "<<") l
  replAll (rstr "K<") (fun _ _ => strL "<") l

def startsCat (cl : Str) : Bool :=
  startsWithL cl (strL "P<") || startsWithL cl (strL "I<") || startsWithL cl (strL "A<")

/-- The line 1 acceptance test. -/
def isMrzLine1 (cl : Str) : Bool :=
  startsCat cl ||
  reTest (seqL [.bos, rstr "P", .rep isUpperC 3 (some 3) false]) cl ||
  reTest (seqL [.bos, rstr "I", .rep isUpperC 3 (some 3) false]) cl ||
  reTest (seqL [.bos, rstr "A", .rep isUpperC 3 (some 3) false]) cl ||
  (containsSub cl (strL "PAK") && containsSub cl (strL "<")) ||
  (containsSub cl (strL "<") &&
    reTest (seqL [.rep isUpperC 3 (some 3) false, .rep isUpperC 1 none false]) cl)

/-- replace of ^([PIA])([A-Z]) by the pair with the filler between. -/
def mrzLine1Fix (cl : Str) : Str :=
  replFirst
    (seqL [.bos, .grp 1 (.cls (fun c => c = 'P' || c = 'I' || c = 'A')),
           .grp 2 (.cls isUpperC)])
    (fun s caps => capSlice s caps 1 ++ '<' :: capSlice s caps 2) cl

/-- The accepted, corrected first MRZ candidate built from a raw
line, when the line qualifies. -/
def mrzCandidate1 (raw : Str) : Option Str :=
  let line := mrzArtifactClean raw
  if line.length ≥ 20 || hasMRZPattern line then
    let cl := mrzCleanLine line
    if cl.length ≥ 20 then
      if isMrzLine1 cl then some (if startsCat cl then cl else mrzLine1Fix cl)
      else none
    else none
  else none

/-- The line 2 acceptance test. -/
def isMrzLine2 (cl : Str) : Bool :=
  (reTest (seqL [.bos, .rep upAlnumC 9 none false]) cl &&
    (containsSub cl (strL "<") ||
     reTest (seqL [dd 6, .cls (fun c => c = 'M' || c = 'F'), dd 6]) cl ||
     containsSub cl (strL "PAK"))) ||
  (cl.length ≥ 25 &&
    reTest (seqL [.bos, .rep isUpperC 2 (some 2) false, .rep isDigitC 7 none false]) cl)

/-- The line 2 fallback acceptance test. -/
def isMrzLine2Fb (cl : Str) : Bool :=
  cl.length ≥ 25 && reTest (seqL [.bos, .cls upAlnumC]) cl && !startsCat cl &&
  !reTest (seqL [.bos, .cls (fun c => c = 'P' || c = 'I' || c = 'A'),
                 .rep isUpperC 3 (some 3) false]) cl

/-- The accepted second MRZ candidate built from a raw line. -/
def mrzCandidate2 (raw : Str) : Option Str :=
  let line := mrzArtifactClean raw
  if line.length ≥ 20 || hasMRZPattern line then
    let cl := mrzCleanLine line
    if cl.length ≥ 20 then
      if isMrzLine2 cl then some cl
      else if isMrzLine2Fb cl then some cl
      else none
    else none
  else none

/-- padEnd(44, filler) then substring(0, 44). -/
def padTo44 (l : Str) : Str := (l ++ List.replicate (44 - l.length) '<').take 44

/-- The normalization of the first MRZ line: pad or truncate to 44,
then re-anchor the category marker when it lacks the filler. -/
def mrzNormalizeLine1 (l : Str) : Str :=
  let l1 := padTo44 l
  if startsCat l1 then l1
  else if startsWithL l1 (strL "P") then strL "P<" ++ l1.drop 1
  else if startsWithL l1 (strL "I") then strL "I<" ++ l1.drop 1
  else if startsWithL l1 (strL "A") then strL "A<" ++ l1.drop 1
  else l1

/-- The normalization of the second MRZ line. -/
def mrzNormalizeLine2 (l : Str) : Str := padTo44 l

/-! ### The passport route: MRZ parse outcome and record formatting

The parse function is the external mrz package; the route only ever
looks at its validity verdict and fields, so an outcome is modelled as
either a throw (caught by the route) or a result record. -/

structure ParseFields where
  documentNumber : Option Str
  lastName : Option Str
  firstName : Option Str
  nationality : Option Str
  birthDate : Option Str
  sex : Option Str
  expirationDate : Option Str
  issuingCountry : Option Str
  optionalData : Option Str
deriving Repr, DecidableEq

structure ParseResult where
  valid : Bool
  fields : ParseFields
deriving Repr, DecidableEq

inductive ParseOutcome where
  | threw
  | ok (r : ParseResult)
deriving Repr, DecidableEq

def monthNames : List Str :=
  [strL "JAN", strL "FEB", strL "MAR", strL "APR", strL "MAY", strL "JUN",
   strL "JUL", strL "AUG", strL "SEP", strL "OCT", strL "NOV", strL "DEC"]

def digitsToNat : Str → Nat
  | s => s.foldl (fun n c => 10 * n + (c.toNat - 48)) 0

def splitOnCharL (sep : Char) : Str → List Str
  | [] => [[]]
  | c :: rest =>
    if c = sep then [] :: splitOnCharL sep rest
    else
      match splitOnCharL sep rest with
      | [] => [[c]]
      | l :: ls => (c :: l) :: ls

/-- The formatDate helper of the route: YYYY-MM-DD becomes
DD MMM YYYY, everything else is returned unchanged; an out-of-range
month index renders the JS undefined placeholder. -/
def formatDateJS (o : Option Str) : Option Str :=
  match o with
  | none => none
  | some ds =>
    if ds.isEmpty then none
    else if reTest (seqL [.bos, dd 4, rchar '-', dd 2, rchar '-', dd 2, .eos false]) ds then
      match splitOnCharL '-' ds with
      | [year, month, day] =>
        let idx := digitsToNat month
        let m :=
          if idx = 0 then strL "undefined"
          else
            match monthNames.get? (idx - 1) with
            | some mn => mn
            | none => strL "undefined"
        some (day ++ ' ' :: (m ++ ' ' :: year))
      | _ => some ds
    else some ds

/-- One attempt of (d{5}[-]?d{7}[-]?d{1}) at the head of s, the route
variant without optional whitespace. -/
def routeCnicAt (s : Str) : Option Str :=
  match takeDigits 5 s with
  | none => none
  | some (d5, r1) =>
    let (s1, r2) := takeOptC (fun c => c = '-') r1
    match takeDigits 7 r2 with
    | none => none
    | some (d7, r3) =>
      let (s3, r4) := takeOptC (fun c => c = '-') r3
      match takeDigits 1 r4 with
      | none => none
      | some (d1, _) => some (d5 ++ s1 ++ d7 ++ s3 ++ d1)

def routeCnicScanGo : Nat → Str → Option Str
  | 0, _ => none
  | fuel + 1, s =>
    match routeCnicAt s with
    | some m => some m
    | none =>
      match s with
      | [] => none
      | _ :: rest => routeCnicScanGo fuel rest

def routeCnicScan (s : Str) : Option Str := routeCnicScanGo (s.length + 1) s

/-- ^d{13}$ -/
def exactly13Pat : RE := seqL [.bos, dd 13, .eos false]

/-- The citizenship number extracted from the MRZ optional data. -/
def routeCitizenship (opt : Option Str) : Option Str :=
  match opt with
  | none => none
  | some od0 =>
    if od0.isEmpty then none
    else
      let od := od0.filter (fun c => !isWsC c)
      match routeCnicScan od with
      | some m =>
        let cnic := m.filter (fun c => !(c = '-'))
        if cnic.length = 13 then some (cnicGroup cnic) else none
      | none =>
        if reTest exactly13Pat od then some (cnicGroup od) else none

def orNullS : Option Str → Option Str
  | some s => if s.isEmpty then none else some s
  | none => none

/-- The mrzData record the route builds from a valid parse result. -/
def mrzDataOf (r : ParseResult) : MRZData :=
  { passportNumber := orNullS r.fields.documentNumber,
    surname := orNullS r.fields.lastName,
    givenNames := orNullS r.fields.firstName,
    nationality := orNullS r.fields.nationality,
    dateOfBirth := formatDateJS r.fields.birthDate,
    gender :=
      (match r.fields.sex with
       | some s =>
         if s.isEmpty then none
         else if s = strL "M" then some (strL "MALE") else some (strL "FEMALE")
       | none => none),
    dateOfExpiry := formatDateJS r.fields.expirationDate,
    issuingAuthority := orNullS r.fields.issuingCountry,
    citizenshipNumber := routeCitizenship r.fields.optionalData }

/-- The MRZ contribution of a parse outcome: null on a throw (the
catch block) and null on an invalid record. -/
def mrzDataOfOutcome : ParseOutcome → Option MRZData
  | .threw => none
  | .ok r => if r.valid then some (mrzDataOf r) else none

/-! ### The passport route: accuracy and confidence -/

def fieldsToCheck : List String :=
  ["passportNumber", "surname", "givenNames", "nationality", "dateOfBirth",
   "placeOfBirth", "gender", "dateOfIssue", "dateOfExpiry", "issuingAuthority",
   "husbandName", "citizenshipNumber"]

/-- cleaned[field] is neither null nor the empty string nor absent. -/
def isFilledIn (o : JSObj) (f : String) : Bool :=
  match lookupJS o f with
  | some v => !(emptyVal v)
  | none => false

/-- Math.round: floor at the half point, as for the nonnegative
values produced here. -/
def jsRound (q : ℚ) : ℤ := Int.floor (q + 1 / 2)

def extractionAccuracyOf (cleaned : JSObj) : ℤ :=
  let totalFields := fieldsToCheck.length
  let extractedFields := (fieldsToCheck.filter (isFilledIn cleaned)).length
  if totalFields > 0 then jsRound ((extractedFields : ℚ) / (totalFields : ℚ) * 100) else 0

/-- The OCR confidence of the image branch: the mean of the positive
word confidences, zero without words or positive confidences.  The
JS zero-default of a missing confidence is the identity on the
numeric confidences modelled here. -/
def ocrConfidenceOf (words : List ℚ) : ℚ :=
  if words.length > 0 then
    let confidences := (words.map (fun c => c)).filter (fun c => 0 < c)
    if confidences.length > 0 then confidences.sum / (confidences.length : ℚ) else 0
  else 0

/-- min(100, round(ocr half plus three tenths accuracy plus the MRZ
bonus)); the JS constants 0.5 and 0.3 are modelled as rationals. -/
def overallConfidenceOf (ocr : ℚ) (acc : ℤ) (mrzData : Option MRZData) : ℤ :=
  let mrzBonus : ℚ := if mrzData.isSome then 20 else 0
  min 100 (jsRound (ocr * (1 / 2) + (acc : ℚ) * (3 / 10) + mrzBonus))

structure PassportResponse where
  success : Bool
  data : JSObj
  ocrConfidence : ℤ
  extractionAccuracy : ℤ
  overallConfidence : ℤ
  mrzUsed : Bool
deriving Repr, DecidableEq

/-- The passport route after text recovery: MRZ contribution,
extraction, cleaning, accuracy and confidence; the route always
answers success on this path. -/
def passportRoute (text : Str) (outcome : ParseOutcome) (words : List ℚ) : PassportResponse :=
  let ocrConfidence := ocrConfidenceOf words
  let mrzData := mrzDataOfOutcome outcome
  let extractedData := extractPassportData text mrzData
  let cleanedData := cleanData (passportAssoc extractedData)
  let extractionAccuracy := extractionAccuracyOf cleanedData
  let overallConfidence := overallConfidenceOf ocrConfidence extractionAccuracy mrzData
  { success := true, data := cleanedData, ocrConfidence := jsRound ocrConfidence,
    extractionAccuracy := extractionAccuracy, overallConfidence := overallConfidence,
    mrzUsed := mrzData.isSome }

/-- Modelled from the claim wording of C4: round(100 times the number
of passport required fields with a non-null value over the number of
required fields).  This is the comparison definition, not source
code. -/
def claimExtractionAccuracy (cleaned : JSObj) : ℤ :=
  let filled := (passportRequiredFields.filter (fun f =>
    match lookupJS cleaned f with
    | some v => v.isSome
    | none => false)).length
  jsRound (100 * ((filled : ℚ) / (passportRequiredFields.length : ℚ)))

/-- The required-field set cleanData selects for an object. -/
def requiredOf (o : JSObj) : List String :=
  if containsKeyJS o "passportNumber" || containsKeyJS o "surname" then
    passportRequiredFields
  else cnicRequiredFields

/-- The number of checked fields of the passport record carrying a
non-null non-empty value, in the order of fieldsToCheck. -/
def countFilled12 (d : PassportData) : Nat :=
  ([d.passportNumber, d.surname, d.givenNames, d.nationality, d.dateOfBirth,
    d.placeOfBirth, d.gender, d.dateOfIssue, d.dateOfExpiry, d.issuingAuthority,
    d.husbandName, d.citizenshipNumber].filter truthyS).length

/-- A parse outcome record that passed validation and carries the
document number AB1234567 and nothing else. -/
def mrzParseC1 : ParseResult :=
  { valid := true,
    fields := { documentNumber := some (strL "AB1234567"), lastName := none,
                firstName := none, nationality := none, birthDate := none,
                sex := none, expirationDate := none, issuingCountry := none,
                optionalData := none } }

/-- The passport record field carried by a checked field name. -/
def fieldValOf (d : PassportData) : String → Option Str
  | "passportNumber" => d.passportNumber
  | "surname" => d.surname
  | "givenNames" => d.givenNames
  | "nationality" => d.nationality
  | "dateOfBirth" => d.dateOfBirth
  | "placeOfBirth" => d.placeOfBirth
  | "gender" => d.gender
  | "dateOfIssue" => d.dateOfIssue
  | "dateOfExpiry" => d.dateOfExpiry
  | "issuingAuthority" => d.issuingAuthority
  | "husbandName" => d.husbandName
  | "citizenshipNumber" => d.citizenshipNumber
  | _ => none

/-- The canonical dash-grouped identifier form: five digits, a dash,
seven digits, a dash, one digit, nothing more. -/
def isCanonCnic (s : Str) : Bool :=
  match takeDigits 5 s with
  | some (_, c1 :: r1) =>
    if c1 = '-' then
      match takeDigits 7 r1 with
      | some (_, c2 :: r2) =>
        if c2 = '-' then
          match takeDigits 1 r2 with
          | some (_, []) => true
          | _ => false
        else false
      | _ => false
    else false
  | _ => false

/-! ## Lemmas on object lookup and cleanData -/

theorem lookupJS_nil (k : String) : lookupJS [] k = none := rfl

theorem lookupJS_cons (kv : String × Option Str) (o : JSObj) (k : String) :
    lookupJS (kv :: o) k = if kv.1 = k then some kv.2 else lookupJS o k := by
  by_cases h : kv.1 = k
  · simp [lookupJS, List.find?_cons_of_pos, h]
  · simp [lookupJS, List.find?_cons_of_neg, h]

theorem lookupJS_not_mem (o : JSObj) (k : String) (h : k ∉ o.map Prod.fst) :
    lookupJS o k = none := by
  induction o with
  | nil => rfl
  | cons kv rest ih =>
    simp only [List.map_cons, List.mem_cons, not_or] at h
    rw [lookupJS_cons, if_neg (fun he => h.1 he.symm)]
    exact ih h.2

theorem lookupJS_filter_pos (o : JSObj) (q : String × Option Str → Bool) (k : String)
    (v : Option Str) (hl : lookupJS o k = some v) (hq : q (k, v) = true) :
    lookupJS (o.filter q) k = some v := by
  induction o with
  | nil => simp [lookupJS_nil] at hl
  | cons kv rest ih =>
    obtain ⟨k1, v1⟩ := kv
    rw [lookupJS_cons] at hl
    by_cases h : k1 = k
    · simp only [h, if_pos rfl] at hl
      cases hl
      subst h
      rw [List.filter_cons, if_pos hq, lookupJS_cons, if_pos rfl]
    · simp only [h, if_neg, ite_false] at hl
      rw [List.filter_cons]
      by_cases hq2 : q (k1, v1) = true
      · rw [if_pos hq2, lookupJS_cons, if_neg h]
        exact ih hl
      · rw [if_neg hq2]
        exact ih hl

theorem lookupJS_filter_none (o : JSObj) (q : String × Option Str → Bool) (k : String)
    (hl : lookupJS o k = none) : lookupJS (o.filter q) k = none := by
  induction o with
  | nil => rfl
  | cons kv rest ih =>
    obtain ⟨k1, v1⟩ := kv
    rw [lookupJS_cons] at hl
    by_cases h : k1 = k
    · simp [h] at hl
    · simp only [h, if_neg, ite_false] at hl
      rw [List.filter_cons]
      by_cases hq2 : q (k1, v1) = true
      · rw [if_pos hq2, lookupJS_cons, if_neg h]
        exact ih hl
      · rw [if_neg hq2]
        exact ih hl

theorem lookupJS_filter_dropped (o : JSObj) (q : String × Option Str → Bool) (k : String)
    (v : Option Str) (hnd : (o.map Prod.fst).Nodup) (hl : lookupJS o k = some v)
    (hq : q (k, v) = false) : lookupJS (o.filter q) k = none := by
  induction o with
  | nil => simp [lookupJS_nil] at hl
  | cons kv rest ih =>
    obtain ⟨k1, v1⟩ := kv
    rw [lookupJS_cons] at hl
    simp only [List.map_cons, List.nodup_cons] at hnd
    by_cases h : k1 = k
    · simp only [h, if_pos rfl] at hl
      cases hl
      subst h
      rw [List.filter_cons, if_neg (by rw [hq]; exact Bool.false_ne_true)]
      exact lookupJS_filter_none rest q k1 (lookupJS_not_mem rest k1 hnd.1)
    · simp only [h, if_neg, ite_false] at hl
      rw [List.filter_cons]
      by_cases hq2 : q (k1, v1) = true
      · rw [if_pos hq2, lookupJS_cons, if_neg h]
        exact ih hnd.2 hl
      · rw [if_neg hq2]
        exact ih hnd.2 hl

theorem lookupJS_append (a b : JSObj) (k : String) :
    lookupJS (a ++ b) k = ((lookupJS a) k).or (lookupJS b k) := by
  unfold lookupJS
  rw [List.find?_append]
  cases List.find? (fun kv => kv.1 = k) a <;> rfl

theorem lookupJS_missing_map (req : List String) (p : String → Bool) (k : String) :
    lookupJS ((req.filter p).map (fun f => (f, (none : Option Str)))) k =
      if req.contains k && p k then some none else none := by
  induction req with
  | nil => simp [lookupJS_nil]
  | cons f rest ih =>
    rw [List.filter_cons]
    by_cases hp : p f = true
    · rw [if_pos hp, List.map_cons, lookupJS_cons]
      by_cases h : f = k
      · subst h
        simp [hp]
      · simp only [h, if_neg, ite_false, ih]
        have hcc : (f :: rest).contains k = rest.contains k := by
          simp only [List.contains_cons, Bool.or_eq_true, beq_iff_eq]
          by_cases hkf : k = f
          · exact absurd hkf.symm h
          · simp [hkf]
        rw [hcc]
    · rw [if_neg hp, ih]
      by_cases h : f = k
      · subst h
        simp [hp]
      · have hcc : (f :: rest).contains k = rest.contains k := by
          simp only [List.contains_cons, Bool.or_eq_true, beq_iff_eq]
          by_cases hkf : k = f
          · exact absurd hkf.symm h
          · simp [hkf]
        rw [hcc]

theorem containsKeyJS_eq_isSome (o : JSObj) (k : String) :
    containsKeyJS o k = (lookupJS o k).isSome := by
  unfold containsKeyJS lookupJS
  cases o.find? (fun kv => kv.1 = k) <;> rfl

theorem cleanData_eq (o : JSObj) :
    cleanData o =
      o.filter (fun kv => !(emptyVal kv.2) || (requiredOf o).contains kv.1) ++
      ((requiredOf o).filter (fun f =>
          !(containsKeyJS (o.filter (fun kv =>
            !(emptyVal kv.2) || (requiredOf o).contains kv.1)) f))).map
        (fun f => (f, none)) := rfl

/-- The lookup behavior of cleanData: a required key keeps its value
or appears as an explicit null, any other key keeps a non-null
non-empty value and is dropped otherwise. -/
theorem cleanData_lookup (o : JSObj) (k : String) (hnd : (o.map Prod.fst).Nodup) :
    lookupJS (cleanData o) k =
      (match lookupJS o k with
       | some v => if !(emptyVal v) || (requiredOf o).contains k then some v else none
       | none => if (requiredOf o).contains k then some none else none) := by
  rw [cleanData_eq, lookupJS_append]
  cases hl : lookupJS o k with
  | some v =>
    dsimp only
    by_cases hqv : (!(emptyVal v) || (requiredOf o).contains k) = true
    · rw [lookupJS_filter_pos o _ k v hl hqv]
      rw [if_pos hqv]
      rfl
    · have hqf : (!(emptyVal v) || (requiredOf o).contains k) = false :=
        Bool.not_eq_true _ |>.mp hqv
      rw [lookupJS_filter_dropped o _ k v hnd hl hqf]
      rw [Option.none_or, lookupJS_missing_map, if_neg hqv]
      have h2 : (requiredOf o).contains k = false :=
        (Bool.or_eq_false_iff.mp hqf).2
      rw [h2]
      rfl
  | none =>
    dsimp only
    rw [lookupJS_filter_none o _ k hl, Option.none_or, lookupJS_missing_map]
    have hck : containsKeyJS (o.filter (fun kv =>
        !(emptyVal kv.2) || (requiredOf o).contains kv.1)) k = false := by
      rw [containsKeyJS_eq_isSome, lookupJS_filter_none o _ k hl]
      rfl
    rw [hck]
    cases hc : (requiredOf o).contains k <;> rfl

/-- Every entry of a cleaned object is a required key or carries a
non-null non-empty value. -/
theorem cleanData_entry (o : JSObj) (kv : String × Option Str) (h : kv ∈ cleanData o) :
    ((requiredOf o).contains kv.1 || !(emptyVal kv.2)) = true := by
  rw [cleanData_eq] at h
  rcases List.mem_append.mp h with hf | hm
  · have hq := (List.mem_filter.mp hf).2
    rcases Bool.or_eq_true _ _ |>.mp hq with h1 | h2
    · rw [h1, Bool.or_true]
    · rw [h2, Bool.true_or]
  · obtain ⟨f, hf, he⟩ := List.mem_map.mp hm
    have hreq : f ∈ requiredOf o := (List.mem_filter.mp hf).1
    have hc : (requiredOf o).contains kv.1 = true := by
      rw [← he]
      exact List.elem_iff.mpr hreq
    rw [hc, Bool.true_or]

/-! ## Field preservation of the CNIC extraction steps -/

@[simp] theorem cnNumberStep_rawText (nt : Str) (d : CNICData) :
    (cnNumberStep nt d).rawText = d.rawText := rfl

@[simp] theorem cnDobStep_rawText (nt : Str) (d : CNICData) :
    (cnDobStep nt d).rawText = d.rawText := rfl

@[simp] theorem cnDobStep_cnicNumber (nt : Str) (d : CNICData) :
    (cnDobStep nt d).cnicNumber = d.cnicNumber := rfl

@[simp] theorem cnDoiStep_rawText (nt : Str) (d : CNICData) :
    (cnDoiStep nt d).rawText = d.rawText := rfl

@[simp] theorem cnDoiStep_cnicNumber (nt : Str) (d : CNICData) :
    (cnDoiStep nt d).cnicNumber = d.cnicNumber := rfl

@[simp] theorem cnDoiStep_dateOfBirth (nt : Str) (d : CNICData) :
    (cnDoiStep nt d).dateOfBirth = d.dateOfBirth := rfl

@[simp] theorem cnDoeStep_rawText (nt : Str) (d : CNICData) :
    (cnDoeStep nt d).rawText = d.rawText := rfl

@[simp] theorem cnDoeStep_cnicNumber (nt : Str) (d : CNICData) :
    (cnDoeStep nt d).cnicNumber = d.cnicNumber := rfl

@[simp] theorem cnDoeStep_dateOfBirth (nt : Str) (d : CNICData) :
    (cnDoeStep nt d).dateOfBirth = d.dateOfBirth := rfl

@[simp] theorem cnDoeStep_dateOfIssue (nt : Str) (d : CNICData) :
    (cnDoeStep nt d).dateOfIssue = d.dateOfIssue := rfl

@[simp] theorem cnGenderStep_rawText (nt : Str) (d : CNICData) :
    (cnGenderStep nt d).rawText = d.rawText := rfl

@[simp] theorem cnGenderStep_cnicNumber (nt : Str) (d : CNICData) :
    (cnGenderStep nt d).cnicNumber = d.cnicNumber := rfl

@[simp] theorem cnGenderStep_dateOfBirth (nt : Str) (d : CNICData) :
    (cnGenderStep nt d).dateOfBirth = d.dateOfBirth := rfl

@[simp] theorem cnGenderStep_dateOfIssue (nt : Str) (d : CNICData) :
    (cnGenderStep nt d).dateOfIssue = d.dateOfIssue := rfl

@[simp] theorem cnGenderStep_dateOfExpiry (nt : Str) (d : CNICData) :
    (cnGenderStep nt d).dateOfExpiry = d.dateOfExpiry := rfl

@[simp] theorem cnNameStep_rawText (lines : List Str) (d : CNICData) :
    (cnNameStep lines d).rawText = d.rawText := rfl

@[simp] theorem cnNameStep_cnicNumber (lines : List Str) (d : CNICData) :
    (cnNameStep lines d).cnicNumber = d.cnicNumber := rfl

@[simp] theorem cnNameStep_dateOfBirth (lines : List Str) (d : CNICData) :
    (cnNameStep lines d).dateOfBirth = d.dateOfBirth := rfl

@[simp] theorem cnNameStep_dateOfIssue (lines : List Str) (d : CNICData) :
    (cnNameStep lines d).dateOfIssue = d.dateOfIssue := rfl

@[simp] theorem cnNameStep_dateOfExpiry (lines : List Str) (d : CNICData) :
    (cnNameStep lines d).dateOfExpiry = d.dateOfExpiry := rfl

@[simp] theorem cnNameFbStep_rawText (lines : List Str) (d : CNICData) :
    (cnNameFbStep lines d).rawText = d.rawText := by
  unfold cnNameFbStep
  split <;> rfl

@[simp] theorem cnNameFbStep_cnicNumber (lines : List Str) (d : CNICData) :
    (cnNameFbStep lines d).cnicNumber = d.cnicNumber := by
  unfold cnNameFbStep
  split <;> rfl

@[simp] theorem cnNameFbStep_dateOfBirth (lines : List Str) (d : CNICData) :
    (cnNameFbStep lines d).dateOfBirth = d.dateOfBirth := by
  unfold cnNameFbStep
  split <;> rfl

@[simp] theorem cnNameFbStep_dateOfIssue (lines : List Str) (d : CNICData) :
    (cnNameFbStep lines d).dateOfIssue = d.dateOfIssue := by
  unfold cnNameFbStep
  split <;> rfl

@[simp] theorem cnNameFbStep_dateOfExpiry (lines : List Str) (d : CNICData) :
    (cnNameFbStep lines d).dateOfExpiry = d.dateOfExpiry := by
  unfold cnNameFbStep
  split <;> rfl

@[simp] theorem cnFatherStep_rawText (lines : List Str) (d : CNICData) :
    (cnFatherStep lines d).rawText = d.rawText := rfl

@[simp] theorem cnFatherStep_cnicNumber (lines : List Str) (d : CNICData) :
    (cnFatherStep lines d).cnicNumber = d.cnicNumber := rfl

@[simp] theorem cnFatherStep_dateOfBirth (lines : List Str) (d : CNICData) :
    (cnFatherStep lines d).dateOfBirth = d.dateOfBirth := rfl

@[simp] theorem cnFatherStep_dateOfIssue (lines : List Str) (d : CNICData) :
    (cnFatherStep lines d).dateOfIssue = d.dateOfIssue := rfl

@[simp] theorem cnFatherStep_dateOfExpiry (lines : List Str) (d : CNICData) :
    (cnFatherStep lines d).dateOfExpiry = d.dateOfExpiry := rfl

@[simp] theorem cnFatherFbStep_rawText (lines : List Str) (d : CNICData) :
    (cnFatherFbStep lines d).rawText = d.rawText := by
  unfold cnFatherFbStep
  repeat' first | rfl | split

@[simp] theorem cnFatherFbStep_cnicNumber (lines : List Str) (d : CNICData) :
    (cnFatherFbStep lines d).cnicNumber = d.cnicNumber := by
  unfold cnFatherFbStep
  repeat' first | rfl | split

@[simp] theorem cnFatherFbStep_dateOfBirth (lines : List Str) (d : CNICData) :
    (cnFatherFbStep lines d).dateOfBirth = d.dateOfBirth := by
  unfold cnFatherFbStep
  repeat' first | rfl | split

@[simp] theorem cnFatherFbStep_dateOfIssue (lines : List Str) (d : CNICData) :
    (cnFatherFbStep lines d).dateOfIssue = d.dateOfIssue := by
  unfold cnFatherFbStep
  repeat' first | rfl | split

@[simp] theorem cnFatherFbStep_dateOfExpiry (lines : List Str) (d : CNICData) :
    (cnFatherFbStep lines d).dateOfExpiry = d.dateOfExpiry := by
  unfold cnFatherFbStep
  repeat' first | rfl | split

@[simp] theorem cnCountryStep_rawText (t : Str) (d : CNICData) :
    (cnCountryStep t d).rawText = d.rawText := by
  unfold cnCountryStep
  repeat' first | rfl | split | dsimp only

@[simp] theorem cnCountryStep_cnicNumber (t : Str) (d : CNICData) :
    (cnCountryStep t d).cnicNumber = d.cnicNumber := by
  unfold cnCountryStep
  repeat' first | rfl | split | dsimp only

@[simp] theorem cnCountryStep_dateOfBirth (t : Str) (d : CNICData) :
    (cnCountryStep t d).dateOfBirth = d.dateOfBirth := by
  unfold cnCountryStep
  repeat' first | rfl | split | dsimp only

@[simp] theorem cnCountryStep_dateOfIssue (t : Str) (d : CNICData) :
    (cnCountryStep t d).dateOfIssue = d.dateOfIssue := by
  unfold cnCountryStep
  repeat' first | rfl | split | dsimp only

@[simp] theorem cnCountryStep_dateOfExpiry (t : Str) (d : CNICData) :
    (cnCountryStep t d).dateOfExpiry = d.dateOfExpiry := by
  unfold cnCountryStep
  repeat' first | rfl | split | dsimp only

@[simp] theorem cnAddressStep_rawText (nt : Str) (d : CNICData) :
    (cnAddressStep nt d).rawText = d.rawText := rfl

@[simp] theorem cnAddressStep_cnicNumber (nt : Str) (d : CNICData) :
    (cnAddressStep nt d).cnicNumber = d.cnicNumber := rfl

@[simp] theorem cnAddressStep_dateOfBirth (nt : Str) (d : CNICData) :
    (cnAddressStep nt d).dateOfBirth = d.dateOfBirth := rfl

@[simp] theorem cnAddressStep_dateOfIssue (nt : Str) (d : CNICData) :
    (cnAddressStep nt d).dateOfIssue = d.dateOfIssue := rfl

@[simp] theorem cnAddressStep_dateOfExpiry (nt : Str) (d : CNICData) :
    (cnAddressStep nt d).dateOfExpiry = d.dateOfExpiry := rfl

/-- The national-identifier field of the extraction is the identifier
block applied to the normalized text. -/
theorem extractCNICData_cnicNumber (t : Str) :
    (extractCNICData t).cnicNumber = cnicNumberOf (normalizeJS t) := by
  simp only [extractCNICData, cnAddressStep_cnicNumber, cnCountryStep_cnicNumber,
    cnFatherFbStep_cnicNumber, cnFatherStep_cnicNumber, cnNameFbStep_cnicNumber,
    cnNameStep_cnicNumber, cnGenderStep_cnicNumber, cnDoeStep_cnicNumber,
    cnDoiStep_cnicNumber, cnDobStep_cnicNumber]
  rfl

theorem extractCNICData_rawText (t : Str) : (extractCNICData t).rawText = t := by
  simp only [extractCNICData, cnAddressStep_rawText, cnCountryStep_rawText,
    cnFatherFbStep_rawText, cnFatherStep_rawText, cnNameFbStep_rawText,
    cnNameStep_rawText, cnGenderStep_rawText, cnDoeStep_rawText, cnDoiStep_rawText,
    cnDobStep_rawText, cnNumberStep_rawText]
  rfl

theorem extractCNICData_dateOfBirth (t : Str) :
    (extractCNICData t).dateOfBirth =
      (match reMatch1 cnPatDob (normalizeJS t) with
       | some v => some v
       | none =>
         if (reMatchAll cnPatDate (normalizeJS t)).length ≥ 1 then
           (reMatchAll cnPatDate (normalizeJS t)).get? 0
         else none) := by
  simp only [extractCNICData, cnAddressStep_dateOfBirth, cnCountryStep_dateOfBirth,
    cnFatherFbStep_dateOfBirth, cnFatherStep_dateOfBirth, cnNameFbStep_dateOfBirth,
    cnNameStep_dateOfBirth, cnGenderStep_dateOfBirth, cnDoeStep_dateOfBirth,
    cnDoiStep_dateOfBirth]
  rfl

theorem extractCNICData_dateOfIssue (t : Str) :
    (extractCNICData t).dateOfIssue =
      (match reMatch1 cnPatIssue (normalizeJS t) with
       | some v => some v
       | none =>
         if (reMatchAll cnPatDate (normalizeJS t)).length ≥ 2 then
           (reMatchAll cnPatDate (normalizeJS t)).get? 1
         else none) := by
  simp only [extractCNICData, cnAddressStep_dateOfIssue, cnCountryStep_dateOfIssue,
    cnFatherFbStep_dateOfIssue, cnFatherStep_dateOfIssue, cnNameFbStep_dateOfIssue,
    cnNameStep_dateOfIssue, cnGenderStep_dateOfIssue, cnDoeStep_dateOfIssue]
  rfl

theorem extractCNICData_dateOfExpiry (t : Str) :
    (extractCNICData t).dateOfExpiry =
      (match reMatch1 cnPatExpiry (normalizeJS t) with
       | some v => some v
       | none =>
         if (reMatchAll cnPatDate (normalizeJS t)).length ≥ 3 then
           (reMatchAll cnPatDate (normalizeJS t)).get? 2
         else none) := by
  simp only [extractCNICData, cnAddressStep_dateOfExpiry, cnCountryStep_dateOfExpiry,
    cnFatherFbStep_dateOfExpiry, cnFatherStep_dateOfExpiry, cnNameFbStep_dateOfExpiry,
    cnNameStep_dateOfExpiry, cnGenderStep_dateOfExpiry]
  rfl

/-! ## Field preservation of the passport extraction steps -/

@[simp] theorem ppInit_rawText (t : Str) : (ppInit t).rawText = t := rfl

@[simp] theorem applyMrz_rawText (d : PassportData) (m : MRZData) :
    (applyMrz d m).rawText = d.rawText := by
  simp only [applyMrz]
  simp [apply_ite PassportData.rawText]

theorem ppMrzStep_none (d : PassportData) : ppMrzStep none d = d := rfl

@[simp] theorem ppMrzStep_rawText (mrz : Option MRZData) (d : PassportData) :
    (ppMrzStep mrz d).rawText = d.rawText := by
  cases mrz with
  | none => rfl
  | some m => exact applyMrz_rawText d m

@[simp] theorem ppPassportNumberStep_rawText (lines : List Str) (nt : Str) (d : PassportData) :
    (ppPassportNumberStep lines nt d).rawText = d.rawText := by
  unfold ppPassportNumberStep
  repeat' first | rfl | split | dsimp only

@[simp] theorem ppPassportNumberStep_dateOfBirth (lines : List Str) (nt : Str) (d : PassportData) :
    (ppPassportNumberStep lines nt d).dateOfBirth = d.dateOfBirth := by
  unfold ppPassportNumberStep
  repeat' first | rfl | split | dsimp only

@[simp] theorem ppPassportNumberStep_dateOfExpiry (lines : List Str) (nt : Str) (d : PassportData) :
    (ppPassportNumberStep lines nt d).dateOfExpiry = d.dateOfExpiry := by
  unfold ppPassportNumberStep
  repeat' first | rfl | split | dsimp only

@[simp] theorem ppPassportNumberStep_dateOfIssue (lines : List Str) (nt : Str) (d : PassportData) :
    (ppPassportNumberStep lines nt d).dateOfIssue = d.dateOfIssue := by
  unfold ppPassportNumberStep
  repeat' first | rfl | split | dsimp only

@[simp] theorem ppDobStep_rawText (lines : List Str) (d : PassportData) :
    (ppDobStep lines d).rawText = d.rawText := by
  unfold ppDobStep
  repeat' first | rfl | split | dsimp only

@[simp] theorem ppDobStep_dateOfExpiry (lines : List Str) (d : PassportData) :
    (ppDobStep lines d).dateOfExpiry = d.dateOfExpiry := by
  unfold ppDobStep
  repeat' first | rfl | split | dsimp only

@[simp] theorem ppDobStep_dateOfIssue (lines : List Str) (d : PassportData) :
    (ppDobStep lines d).dateOfIssue = d.dateOfIssue := by
  unfold ppDobStep
  repeat' first | rfl | split | dsimp only

@[simp] theorem ppDoeStep_rawText (lines : List Str) (d : PassportData) :
    (ppDoeStep lines d).rawText = d.rawText := by
  unfold ppDoeStep
  repeat' first | rfl | split | dsimp only

@[simp] theorem ppDoeStep_dateOfBirth (lines : List Str) (d : PassportData) :
    (ppDoeStep lines d).dateOfBirth = d.dateOfBirth := by
  unfold ppDoeStep
  repeat' first | rfl | split | dsimp only

@[simp] theorem ppDoeStep_dateOfIssue (lines : List Str) (d : PassportData) :
    (ppDoeStep lines d).dateOfIssue = d.dateOfIssue := by
  unfold ppDoeStep
  repeat' first | rfl | split | dsimp only

@[simp] theorem ppDatesDobLabel_rawText (nt : Str) (d : PassportData) :
    (ppDatesDobLabel nt d).rawText = d.rawText := by
  unfold ppDatesDobLabel
  repeat' first | rfl | split | dsimp only

@[simp] theorem ppDatesDobLabel_dateOfExpiry (nt : Str) (d : PassportData) :
    (ppDatesDobLabel nt d).dateOfExpiry = d.dateOfExpiry := by
  unfold ppDatesDobLabel
  repeat' first | rfl | split | dsimp only

@[simp] theorem ppDatesDobLabel_dateOfIssue (nt : Str) (d : PassportData) :
    (ppDatesDobLabel nt d).dateOfIssue = d.dateOfIssue := by
  unfold ppDatesDobLabel
  repeat' first | rfl | split | dsimp only

@[simp] theorem ppDatesDobOrdinal_rawText (dates : List Str) (d : PassportData) :
    (ppDatesDobOrdinal dates d).rawText = d.rawText := by
  unfold ppDatesDobOrdinal
  split <;> rfl

@[simp] theorem ppDatesDobOrdinal_dateOfExpiry (dates : List Str) (d : PassportData) :
    (ppDatesDobOrdinal dates d).dateOfExpiry = d.dateOfExpiry := by
  unfold ppDatesDobOrdinal
  split <;> rfl

@[simp] theorem ppDatesDobOrdinal_dateOfIssue (dates : List Str) (d : PassportData) :
    (ppDatesDobOrdinal dates d).dateOfIssue = d.dateOfIssue := by
  unfold ppDatesDobOrdinal
  split <;> rfl

@[simp] theorem ppDatesDoeLabel_rawText (nt : Str) (d : PassportData) :
    (ppDatesDoeLabel nt d).rawText = d.rawText := by
  unfold ppDatesDoeLabel
  repeat' first | rfl | split | dsimp only

@[simp] theorem ppDatesDoeLabel_dateOfBirth (nt : Str) (d : PassportData) :
    (ppDatesDoeLabel nt d).dateOfBirth = d.dateOfBirth := by
  unfold ppDatesDoeLabel
  repeat' first | rfl | split | dsimp only

@[simp] theorem ppDatesDoeLabel_dateOfIssue (nt : Str) (d : PassportData) :
    (ppDatesDoeLabel nt d).dateOfIssue = d.dateOfIssue := by
  unfold ppDatesDoeLabel
  repeat' first | rfl | split | dsimp only

@[simp] theorem ppDatesDoeOrdinal_rawText (dates : List Str) (d : PassportData) :
    (ppDatesDoeOrdinal dates d).rawText = d.rawText := by
  unfold ppDatesDoeOrdinal
  split <;> rfl

@[simp] theorem ppDatesDoeOrdinal_dateOfBirth (dates : List Str) (d : PassportData) :
    (ppDatesDoeOrdinal dates d).dateOfBirth = d.dateOfBirth := by
  unfold ppDatesDoeOrdinal
  split <;> rfl

@[simp] theorem ppDatesDoeOrdinal_dateOfIssue (dates : List Str) (d : PassportData) :
    (ppDatesDoeOrdinal dates d).dateOfIssue = d.dateOfIssue := by
  unfold ppDatesDoeOrdinal
  split <;> rfl

@[simp] theorem ppDatesBlock_rawText (d : PassportData) (nt : Str) :
    (ppDatesBlock d nt).rawText = d.rawText := by
  unfold ppDatesBlock
  split
  · simp
  · rfl

@[simp] theorem ppDatesBlock_dateOfIssue (d : PassportData) (nt : Str) :
    (ppDatesBlock d nt).dateOfIssue = d.dateOfIssue := by
  unfold ppDatesBlock
  split
  · simp
  · rfl

@[simp] theorem ppGenderStep_rawText (nt : Str) (d : PassportData) :
    (ppGenderStep nt d).rawText = d.rawText := by
  unfold ppGenderStep
  split <;> rfl

@[simp] theorem ppGenderStep_dateOfBirth (nt : Str) (d : PassportData) :
    (ppGenderStep nt d).dateOfBirth = d.dateOfBirth := by
  unfold ppGenderStep
  split <;> rfl

@[simp] theorem ppGenderStep_dateOfExpiry (nt : Str) (d : PassportData) :
    (ppGenderStep nt d).dateOfExpiry = d.dateOfExpiry := by
  unfold ppGenderStep
  split <;> rfl

@[simp] theorem ppGenderStep_dateOfIssue (nt : Str) (d : PassportData) :
    (ppGenderStep nt d).dateOfIssue = d.dateOfIssue := by
  unfold ppGenderStep
  split <;> rfl

@[simp] theorem ppNationalityStep_rawText (lines : List Str) (d : PassportData) :
    (ppNationalityStep lines d).rawText = d.rawText := by
  unfold ppNationalityStep
  repeat' first | rfl | split | dsimp only

@[simp] theorem ppNationalityStep_dateOfBirth (lines : List Str) (d : PassportData) :
    (ppNationalityStep lines d).dateOfBirth = d.dateOfBirth := by
  unfold ppNationalityStep
  repeat' first | rfl | split | dsimp only

@[simp] theorem ppNationalityStep_dateOfExpiry (lines : List Str) (d : PassportData) :
    (ppNationalityStep lines d).dateOfExpiry = d.dateOfExpiry := by
  unfold ppNationalityStep
  repeat' first | rfl | split | dsimp only

@[simp] theorem ppNationalityStep_dateOfIssue (lines : List Str) (d : PassportData) :
    (ppNationalityStep lines d).dateOfIssue = d.dateOfIssue := by
  unfold ppNationalityStep
  repeat' first | rfl | split | dsimp only

@[simp] theorem ppSurnameStep_rawText (lines : List Str) (d : PassportData) :
    (ppSurnameStep lines d).rawText = d.rawText := rfl

@[simp] theorem ppSurnameStep_dateOfBirth (lines : List Str) (d : PassportData) :
    (ppSurnameStep lines d).dateOfBirth = d.dateOfBirth := rfl

@[simp] theorem ppSurnameStep_dateOfExpiry (lines : List Str) (d : PassportData) :
    (ppSurnameStep lines d).dateOfExpiry = d.dateOfExpiry := rfl

@[simp] theorem ppSurnameStep_dateOfIssue (lines : List Str) (d : PassportData) :
    (ppSurnameStep lines d).dateOfIssue = d.dateOfIssue := rfl

@[simp] theorem ppGivenStep_rawText (lines : List Str) (d : PassportData) :
    (ppGivenStep lines d).rawText = d.rawText := by
  unfold ppGivenStep
  repeat' first | rfl | split | dsimp only

@[simp] theorem ppGivenStep_dateOfBirth (lines : List Str) (d : PassportData) :
    (ppGivenStep lines d).dateOfBirth = d.dateOfBirth := by
  unfold ppGivenStep
  repeat' first | rfl | split | dsimp only

@[simp] theorem ppGivenStep_dateOfExpiry (lines : List Str) (d : PassportData) :
    (ppGivenStep lines d).dateOfExpiry = d.dateOfExpiry := by
  unfold ppGivenStep
  repeat' first | rfl | split | dsimp only

@[simp] theorem ppGivenStep_dateOfIssue (lines : List Str) (d : PassportData) :
    (ppGivenStep lines d).dateOfIssue = d.dateOfIssue := by
  unfold ppGivenStep
  repeat' first | rfl | split | dsimp only

@[simp] theorem ppPlaceStep_rawText (lines : List Str) (d : PassportData) :
    (ppPlaceStep lines d).rawText = d.rawText := by
  unfold ppPlaceStep
  repeat' first | rfl | split | dsimp only

@[simp] theorem ppPlaceStep_dateOfBirth (lines : List Str) (d : PassportData) :
    (ppPlaceStep lines d).dateOfBirth = d.dateOfBirth := by
  unfold ppPlaceStep
  repeat' first | rfl | split | dsimp only

@[simp] theorem ppPlaceStep_dateOfExpiry (lines : List Str) (d : PassportData) :
    (ppPlaceStep lines d).dateOfExpiry = d.dateOfExpiry := by
  unfold ppPlaceStep
  repeat' first | rfl | split | dsimp only

@[simp] theorem ppPlaceStep_dateOfIssue (lines : List Str) (d : PassportData) :
    (ppPlaceStep lines d).dateOfIssue = d.dateOfIssue := by
  unfold ppPlaceStep
  repeat' first | rfl | split | dsimp only

@[simp] theorem ppFatherStep_rawText (lines : List Str) (d : PassportData) :
    (ppFatherStep lines d).rawText = d.rawText := by
  unfold ppFatherStep
  repeat' first | rfl | split | dsimp only

@[simp] theorem ppFatherStep_dateOfBirth (lines : List Str) (d : PassportData) :
    (ppFatherStep lines d).dateOfBirth = d.dateOfBirth := by
  unfold ppFatherStep
  repeat' first | rfl | split | dsimp only

@[simp] theorem ppFatherStep_dateOfExpiry (lines : List Str) (d : PassportData) :
    (ppFatherStep lines d).dateOfExpiry = d.dateOfExpiry := by
  unfold ppFatherStep
  repeat' first | rfl | split | dsimp only

@[simp] theorem ppFatherStep_dateOfIssue (lines : List Str) (d : PassportData) :
    (ppFatherStep lines d).dateOfIssue = d.dateOfIssue := by
  unfold ppFatherStep
  repeat' first | rfl | split | dsimp only

@[simp] theorem ppDoiStep_rawText (lines : List Str) (d : PassportData) :
    (ppDoiStep lines d).rawText = d.rawText := rfl

@[simp] theorem ppDoiStep_dateOfBirth (lines : List Str) (d : PassportData) :
    (ppDoiStep lines d).dateOfBirth = d.dateOfBirth := rfl

@[simp] theorem ppDoiStep_dateOfExpiry (lines : List Str) (d : PassportData) :
    (ppDoiStep lines d).dateOfExpiry = d.dateOfExpiry := rfl

@[simp] theorem ppAuthStep_rawText (lines : List Str) (d : PassportData) :
    (ppAuthStep lines d).rawText = d.rawText := by
  unfold ppAuthStep
  repeat' first | rfl | split | dsimp only

@[simp] theorem ppAuthStep_dateOfBirth (lines : List Str) (d : PassportData) :
    (ppAuthStep lines d).dateOfBirth = d.dateOfBirth := by
  unfold ppAuthStep
  repeat' first | rfl | split | dsimp only

@[simp] theorem ppAuthStep_dateOfExpiry (lines : List Str) (d : PassportData) :
    (ppAuthStep lines d).dateOfExpiry = d.dateOfExpiry := by
  unfold ppAuthStep
  repeat' first | rfl | split | dsimp only

@[simp] theorem ppAuthStep_dateOfIssue (lines : List Str) (d : PassportData) :
    (ppAuthStep lines d).dateOfIssue = d.dateOfIssue := by
  unfold ppAuthStep
  repeat' first | rfl | split | dsimp only

@[simp] theorem ppTrackStep_rawText (lines : List Str) (d : PassportData) :
    (ppTrackStep lines d).rawText = d.rawText := by
  unfold ppTrackStep
  repeat' first | rfl | split | dsimp only

@[simp] theorem ppTrackStep_dateOfBirth (lines : List Str) (d : PassportData) :
    (ppTrackStep lines d).dateOfBirth = d.dateOfBirth := by
  unfold ppTrackStep
  repeat' first | rfl | split | dsimp only

@[simp] theorem ppTrackStep_dateOfExpiry (lines : List Str) (d : PassportData) :
    (ppTrackStep lines d).dateOfExpiry = d.dateOfExpiry := by
  unfold ppTrackStep
  repeat' first | rfl | split | dsimp only

@[simp] theorem ppTrackStep_dateOfIssue (lines : List Str) (d : PassportData) :
    (ppTrackStep lines d).dateOfIssue = d.dateOfIssue := by
  unfold ppTrackStep
  repeat' first | rfl | split | dsimp only

@[simp] theorem ppCitStep_rawText (lines : List Str) (d : PassportData) :
    (ppCitStep lines d).rawText = d.rawText := by
  unfold ppCitStep
  repeat' first | rfl | split | dsimp only

@[simp] theorem ppCitStep_dateOfBirth (lines : List Str) (d : PassportData) :
    (ppCitStep lines d).dateOfBirth = d.dateOfBirth := by
  unfold ppCitStep
  repeat' first | rfl | split | dsimp only

@[simp] theorem ppCitStep_dateOfExpiry (lines : List Str) (d : PassportData) :
    (ppCitStep lines d).dateOfExpiry = d.dateOfExpiry := by
  unfold ppCitStep
  repeat' first | rfl | split | dsimp only

@[simp] theorem ppCitStep_dateOfIssue (lines : List Str) (d : PassportData) :
    (ppCitStep lines d).dateOfIssue = d.dateOfIssue := by
  unfold ppCitStep
  repeat' first | rfl | split | dsimp only

@[simp] theorem ppDoiFallbackStep_rawText (nt : Str) (d : PassportData) :
    (ppDoiFallbackStep nt d).rawText = d.rawText := by
  unfold ppDoiFallbackStep
  repeat' first | rfl | split | dsimp only

@[simp] theorem ppDoiFallbackStep_dateOfBirth (nt : Str) (d : PassportData) :
    (ppDoiFallbackStep nt d).dateOfBirth = d.dateOfBirth := by
  unfold ppDoiFallbackStep
  repeat' first | rfl | split | dsimp only

@[simp] theorem ppDoiFallbackStep_dateOfExpiry (nt : Str) (d : PassportData) :
    (ppDoiFallbackStep nt d).dateOfExpiry = d.dateOfExpiry := by
  unfold ppDoiFallbackStep
  repeat' first | rfl | split | dsimp only

theorem extractPassportData_rawText (t : Str) (mrz : Option MRZData) :
    (extractPassportData t mrz).rawText = t := by
  simp only [extractPassportData, ppDoiFallbackStep_rawText, ppCitStep_rawText,
    ppTrackStep_rawText, ppAuthStep_rawText, ppDoiStep_rawText, ppFatherStep_rawText,
    ppPlaceStep_rawText, ppGivenStep_rawText, ppSurnameStep_rawText,
    ppNationalityStep_rawText, ppGenderStep_rawText, ppDatesBlock_rawText,
    ppDoeStep_rawText, ppDobStep_rawText, ppPassportNumberStep_rawText,
    ppMrzStep_rawText, ppInit_rawText]

/-! ## Lemmas on the structured identifier matchers -/

theorem takeDigits_spec : ∀ (n : Nat) (s d r : Str), takeDigits n s = some (d, r) →
    d.length = n ∧ (∀ c ∈ d, isDigitC c = true) ∧ s = d ++ r := by
  intro n
  induction n with
  | zero =>
    intro s d r h
    unfold takeDigits at h
    injection h with h
    injection h with h1 h2
    subst h1; subst h2
    simp
  | succ n ih =>
    intro s d r h
    cases s with
    | nil => simp [takeDigits] at h
    | cons c rest =>
      unfold takeDigits at h
      by_cases hc : isDigitC c = true
      · rw [if_pos hc] at h
        cases hd : takeDigits n rest with
        | none => rw [hd] at h; cases h
        | some pr =>
          obtain ⟨d2, r2⟩ := pr
          rw [hd] at h
          injection h with h
          injection h with h1 h2
          subst h1; subst h2
          obtain ⟨h1, h2, h3⟩ := ih rest d2 r2 hd
          refine ⟨by simp [h1], ?_, by simp [h3]⟩
          intro x hx
          rcases List.mem_cons.mp hx with hx | hx
          · subst hx; exact hc
          · exact h2 x hx
      · rw [if_neg hc] at h; cases h

theorem takeDigits_exact : ∀ (d rest : Str), (∀ c ∈ d, isDigitC c = true) →
    takeDigits d.length (d ++ rest) = some (d, rest) := by
  intro d
  induction d with
  | nil => intro rest _; rfl
  | cons c d2 ih =>
    intro rest hd
    have hc : isDigitC c = true := hd c (List.mem_cons_self c d2)
    simp only [List.length_cons, List.cons_append]
    unfold takeDigits
    rw [if_pos hc, ih rest (fun x hx => hd x (List.mem_cons_of_mem c hx))]

theorem digit_keep (c : Char) (h : isDigitC c = true) :
    (isWsC c || decide (c = '-')) = false := by
  have h1 := of_decide_eq_true h
  rw [Bool.or_eq_false_iff]
  constructor
  · apply decide_eq_false
    intro h2
    omega
  · apply decide_eq_false
    intro h2
    subst h2
    simp at h1

theorem stripWsDash_digits (d : Str) (hd : ∀ c ∈ d, isDigitC c = true) :
    stripWsDash d = d := by
  unfold stripWsDash
  apply List.filter_eq_self.mpr
  intro c hc
  rw [digit_keep c (hd c hc)]
  rfl

theorem stripWsDash_sep (s : Str) (hs : ∀ c ∈ s, (isWsC c || decide (c = '-')) = true) :
    stripWsDash s = [] := by
  unfold stripWsDash
  apply List.filter_eq_nil_iff.mpr
  intro c hc
  rw [hs c hc]
  simp

theorem stripWsDash_append (a b : Str) :
    stripWsDash (a ++ b) = stripWsDash a ++ stripWsDash b :=
  List.filter_append a b

theorem stripWsDash_dash_cons (x : Str) : stripWsDash ('-' :: x) = stripWsDash x := by
  unfold stripWsDash
  rw [List.filter_cons]
  simp

theorem takeOptC_spec (p : Char → Bool) (s : Str) :
    s = (takeOptC p s).1 ++ (takeOptC p s).2 ∧
      ((takeOptC p s).1 = [] ∨ ∃ c, (takeOptC p s).1 = [c] ∧ p c = true) := by
  cases s with
  | nil => exact ⟨rfl, Or.inl rfl⟩
  | cons c rest =>
    simp only [takeOptC]
    by_cases hc : p c = true
    · rw [if_pos hc]
      exact ⟨rfl, Or.inr ⟨c, rfl, hc⟩⟩
    · rw [if_neg hc]
      exact ⟨rfl, Or.inl rfl⟩

theorem cnicAt_strip (s m : Str) (h : cnicAt s = some m) :
    (stripWsDash m).length = 13 ∧ (∀ c ∈ stripWsDash m, isDigitC c = true) := by
  unfold cnicAt at h
  cases h5 : takeDigits 5 s with
  | none => rw [h5] at h; cases h
  | some p5 =>
    obtain ⟨d5, r1⟩ := p5
    rw [h5] at h
    dsimp only at h
    rcases hq1 : takeOptC (fun c => decide (c = '-')) r1 with ⟨s1, r2⟩
    rw [hq1] at h
    dsimp only at h
    rcases hq2 : takeOptC isWsC r2 with ⟨s2, r3⟩
    rw [hq2] at h
    dsimp only at h
    cases h7 : takeDigits 7 r3 with
    | none => rw [h7] at h; cases h
    | some p7 =>
      obtain ⟨d7, r4⟩ := p7
      rw [h7] at h
      dsimp only at h
      rcases hq3 : takeOptC (fun c => decide (c = '-')) r4 with ⟨s3, r5⟩
      rw [hq3] at h
      dsimp only at h
      rcases hq4 : takeOptC isWsC r5 with ⟨s4, r6⟩
      rw [hq4] at h
      dsimp only at h
      cases h1 : takeDigits 1 r6 with
      | none => rw [h1] at h; cases h
      | some p1 =>
        obtain ⟨d1, r7⟩ := p1
        rw [h1] at h
        dsimp only at h
        injection h with h
        subst h
        obtain ⟨l5, g5, _⟩ := takeDigits_spec 5 s d5 r1 h5
        obtain ⟨l7, g7, _⟩ := takeDigits_spec 7 r3 d7 r4 h7
        obtain ⟨l1, g1, _⟩ := takeDigits_spec 1 r6 d1 r7 h1
        have sep1 : ∀ c ∈ s1, (isWsC c || decide (c = '-')) = true := by
          intro c hc
          rcases (takeOptC_spec (fun c => decide (c = '-')) r1).2 with he | ⟨c2, he, hp⟩
          · rw [hq1] at he; simp at he; subst he; simp at hc
          · rw [hq1] at he
            dsimp at he
            subst he
            rcases List.mem_singleton.mp hc with rfl
            simp only [hp, Bool.or_true]
        have sep2 : ∀ c ∈ s2, (isWsC c || decide (c = '-')) = true := by
          intro c hc
          rcases (takeOptC_spec isWsC r2).2 with he | ⟨c2, he, hp⟩
          · rw [hq2] at he; simp at he; subst he; simp at hc
          · rw [hq2] at he
            dsimp at he
            subst he
            rcases List.mem_singleton.mp hc with rfl
            simp only [hp, Bool.true_or]
        have sep3 : ∀ c ∈ s3, (isWsC c || decide (c = '-')) = true := by
          intro c hc
          rcases (takeOptC_spec (fun c => decide (c = '-')) r4).2 with he | ⟨c2, he, hp⟩
          · rw [hq3] at he; simp at he; subst he; simp at hc
          · rw [hq3] at he
            dsimp at he
            subst he
            rcases List.mem_singleton.mp hc with rfl
            simp only [hp, Bool.or_true]
        have sep4 : ∀ c ∈ s4, (isWsC c || decide (c = '-')) = true := by
          intro c hc
          rcases (takeOptC_spec isWsC r5).2 with he | ⟨c2, he, hp⟩
          · rw [hq4] at he; simp at he; subst he; simp at hc
          · rw [hq4] at he
            dsimp at he
            subst he
            rcases List.mem_singleton.mp hc with rfl
            simp only [hp, Bool.true_or]
        have hstrip : stripWsDash (d5 ++ s1 ++ s2 ++ d7 ++ s3 ++ s4 ++ d1) =
            d5 ++ d7 ++ d1 := by
          repeat rw [stripWsDash_append]
          rw [stripWsDash_digits d5 g5, stripWsDash_digits d7 g7,
            stripWsDash_digits d1 g1, stripWsDash_sep s1 sep1, stripWsDash_sep s2 sep2,
            stripWsDash_sep s3 sep3, stripWsDash_sep s4 sep4]
          simp
        rw [hstrip]
        constructor
        · simp [l5, l7, l1]
        · intro c hc
          rcases List.mem_append.mp hc with hc | hc
          · rcases List.mem_append.mp hc with hc | hc
            · exact g5 c hc
            · exact g7 c hc
          · exact g1 c hc

theorem cnicScanGo_succ (fuel : Nat) (s : Str) :
    cnicScanGo (fuel + 1) s =
      (match cnicAt s with
       | some m => some m
       | none =>
         match s with
         | [] => none
         | _ :: rest => cnicScanGo fuel rest) := rfl

theorem cnicScanGo_strip : ∀ (fuel : Nat) (s m : Str), cnicScanGo fuel s = some m →
    (stripWsDash m).length = 13 ∧ (∀ c ∈ stripWsDash m, isDigitC c = true) := by
  intro fuel
  induction fuel with
  | zero => intro s m h; cases h
  | succ fuel ih =>
    intro s m h
    rw [cnicScanGo_succ] at h
    cases ha : cnicAt s with
    | some m2 =>
      rw [ha] at h
      injection h with h
      subst h
      exact cnicAt_strip s m2 ha
    | none =>
      rw [ha] at h
      cases s with
      | nil => cases h
      | cons c rest => exact ih rest m h

theorem cnicScan_strip (s m : Str) (h : cnicScan s = some m) :
    (stripWsDash m).length = 13 ∧ (∀ c ∈ stripWsDash m, isDigitC c = true) :=
  cnicScanGo_strip (s.length + 1) s m h

/-- The canonical shape built from digit groups of lengths 5, 7, 1. -/
theorem canon_build (d5 d7 d1 : Str) (l5 : d5.length = 5) (l7 : d7.length = 7)
    (l1 : d1.length = 1) (g5 : ∀ c ∈ d5, isDigitC c = true)
    (g7 : ∀ c ∈ d7, isDigitC c = true) (g1 : ∀ c ∈ d1, isDigitC c = true) :
    isCanonCnic (d5 ++ '-' :: (d7 ++ '-' :: d1)) = true := by
  unfold isCanonCnic
  have h5 : takeDigits 5 (d5 ++ '-' :: (d7 ++ '-' :: d1)) =
      some (d5, '-' :: (d7 ++ '-' :: d1)) := by
    rw [← l5]
    exact takeDigits_exact d5 _ g5
  rw [h5]
  dsimp only
  rw [if_pos rfl]
  have h7 : takeDigits 7 (d7 ++ '-' :: d1) = some (d7, '-' :: d1) := by
    rw [← l7]
    exact takeDigits_exact d7 _ g7
  rw [h7]
  dsimp only
  rw [if_pos rfl]
  have h1 : takeDigits 1 d1 = some (d1, []) := by
    have he := takeDigits_exact d1 [] g1
    rw [List.append_nil] at he
    rw [← l1]
    exact he
  rw [h1]

theorem canon_decomp (m : Str) (h : isCanonCnic m = true) :
    ∃ d5 d7 d1 : Str, m = d5 ++ '-' :: (d7 ++ '-' :: d1) ∧ d5.length = 5 ∧
      d7.length = 7 ∧ d1.length = 1 ∧ (∀ c ∈ d5, isDigitC c = true) ∧
      (∀ c ∈ d7, isDigitC c = true) ∧ (∀ c ∈ d1, isDigitC c = true) := by
  unfold isCanonCnic at h
  cases h5 : takeDigits 5 m with
  | none => rw [h5] at h; cases h
  | some p5 =>
    obtain ⟨d5, rest⟩ := p5
    rw [h5] at h
    cases rest with
    | nil => simp at h
    | cons c r1 =>
      dsimp only at h
      by_cases hc : c = '-'
      · rw [if_pos hc] at h
        subst hc
        cases h7 : takeDigits 7 r1 with
        | none => rw [h7] at h; cases h
        | some p7 =>
          obtain ⟨d7, rest2⟩ := p7
          rw [h7] at h
          cases rest2 with
          | nil => simp at h
          | cons c2 r2 =>
            dsimp only at h
            by_cases hc2 : c2 = '-'
            · rw [if_pos hc2] at h
              subst hc2
              cases h1 : takeDigits 1 r2 with
              | none => rw [h1] at h; cases h
              | some p1 =>
                obtain ⟨d1, rest3⟩ := p1
                rw [h1] at h
                cases rest3 with
                | nil =>
                  obtain ⟨l5, g5, e5⟩ := takeDigits_spec 5 m d5 _ h5
                  obtain ⟨l7, g7, e7⟩ := takeDigits_spec 7 r1 d7 _ h7
                  obtain ⟨l1, g1, e1⟩ := takeDigits_spec 1 r2 d1 _ h1
                  rw [List.append_nil] at e1
                  refine ⟨d5, d7, d1, ?_, l5, l7, l1, g5, g7, g1⟩
                  rw [e5, e7, e1]
                | cons c3 r3 => simp at h
            · rw [if_neg hc2] at h
              cases h
      · rw [if_neg hc] at h
        cases h

/-- Separator stripping and regrouping of a canonical identifier give
back the identifier itself. -/
theorem canon_strip_group (m : Str) (h : isCanonCnic m = true) :
    (stripWsDash m).length = 13 ∧ cnicGroup (stripWsDash m) = m := by
  obtain ⟨d5, d7, d1, he, l5, l7, l1, g5, g7, g1⟩ := canon_decomp m h
  subst he
  have hstrip : stripWsDash (d5 ++ '-' :: (d7 ++ '-' :: d1)) = d5 ++ (d7 ++ d1) := by
    rw [stripWsDash_append, stripWsDash_dash_cons, stripWsDash_append,
      stripWsDash_dash_cons, stripWsDash_digits d5 g5, stripWsDash_digits d7 g7,
      stripWsDash_digits d1 g1]
  rw [hstrip]
  constructor
  · simp [l5, l7, l1]
  · unfold cnicGroup
    have ht5 : (d5 ++ (d7 ++ d1)).take 5 = d5 := by
      rw [← l5]
      exact List.take_left d5 (d7 ++ d1)
    have hd5 : (d5 ++ (d7 ++ d1)).drop 5 = d7 ++ d1 := by
      rw [← l5]
      exact List.drop_left d5 (d7 ++ d1)
    have ht7 : (d7 ++ d1).take 7 = d7 := by
      rw [← l7]
      exact List.take_left d7 d1
    have hd12 : (d5 ++ (d7 ++ d1)).drop 12 = d1 := by
      rw [← List.append_assoc]
      have hl : (d5 ++ d7).length = 12 := by simp [l5, l7]
      rw [← hl]
      exact List.drop_left (d5 ++ d7) d1
    rw [ht5, hd5, ht7, hd12]

/-- Regrouping 13 digits yields the canonical form. -/
theorem cnicGroup_canon (c : Str) (h13 : c.length = 13)
    (hd : ∀ x ∈ c, isDigitC x = true) : isCanonCnic (cnicGroup c) = true := by
  unfold cnicGroup
  apply canon_build
  · rw [List.length_take, h13]
    decide
  · rw [List.length_take, List.length_drop, h13]
    decide
  · rw [List.length_drop, h13]
  · intro x hx
    exact hd x (List.mem_of_mem_take hx)
  · intro x hx
    exact hd x (List.mem_of_mem_drop (List.mem_of_mem_take hx))
  · intro x hx
    exact hd x (List.mem_of_mem_drop hx)

theorem scanLines_some (f : Str → Option Str) :
    ∀ (l : List Str) (r : Str), scanLines f l = some r →
      ∃ line ∈ l, f (trimL line) = some r := by
  intro l
  induction l with
  | nil => intro r h; cases h
  | cons x rest ih =>
    intro r h
    unfold scanLines at h
    cases hf : f (trimL x) with
    | some v =>
      rw [hf] at h
      injection h with h
      subst h
      exact ⟨x, List.mem_cons_self x rest, hf⟩
    | none =>
      rw [hf] at h
      obtain ⟨line, hm, he⟩ := ih r h
      exact ⟨line, List.mem_cons_of_mem x hm, he⟩

theorem cnicDashedAt_canon (s m : Str) (h : cnicDashedAt s = some m) :
    isCanonCnic m = true := by
  unfold cnicDashedAt at h
  cases h5 : takeDigits 5 s with
  | none => rw [h5] at h; cases h
  | some p5 =>
    obtain ⟨d5, r1⟩ := p5
    rw [h5] at h
    dsimp only at h
    cases r1 with
    | nil => cases h
    | cons c1 r2 =>
      dsimp only at h
      by_cases hc1 : c1 = '-'
      · rw [if_pos hc1] at h
        subst hc1
        cases h7 : takeDigits 7 r2 with
        | none => rw [h7] at h; cases h
        | some p7 =>
          obtain ⟨d7, r3⟩ := p7
          rw [h7] at h
          dsimp only at h
          cases r3 with
          | nil => cases h
          | cons c2 r4 =>
            dsimp only at h
            by_cases hc2 : c2 = '-'
            · rw [if_pos hc2] at h
              subst hc2
              cases h1 : takeDigits 1 r4 with
              | none => rw [h1] at h; cases h
              | some p1 =>
                obtain ⟨d1, r5⟩ := p1
                rw [h1] at h
                dsimp only at h
                injection h with h
                subst h
                obtain ⟨l5, g5, _⟩ := takeDigits_spec 5 s d5 _ h5
                obtain ⟨l7, g7, _⟩ := takeDigits_spec 7 r2 d7 _ h7
                obtain ⟨l1, g1, _⟩ := takeDigits_spec 1 r4 d1 _ h1
                exact canon_build d5 d7 d1 l5 l7 l1 g5 g7 g1
            · rw [if_neg hc2] at h
              cases h
      · rw [if_neg hc1] at h
        cases h

theorem cnicDashedScanGo_succ (fuel : Nat) (s : Str) :
    cnicDashedScanGo (fuel + 1) s =
      (match cnicDashedAt s with
       | some m => some m
       | none =>
         match s with
         | [] => none
         | _ :: rest => cnicDashedScanGo fuel rest) := rfl

theorem cnicDashedScanGo_canon : ∀ (fuel : Nat) (s m : Str),
    cnicDashedScanGo fuel s = some m → isCanonCnic m = true := by
  intro fuel
  induction fuel with
  | zero => intro s m h; cases h
  | succ fuel ih =>
    intro s m h
    rw [cnicDashedScanGo_succ] at h
    cases ha : cnicDashedAt s with
    | some m2 =>
      rw [ha] at h
      injection h with h
      subst h
      exact cnicDashedAt_canon s m2 ha
    | none =>
      rw [ha] at h
      cases s with
      | nil => cases h
      | cons c rest => exact ih rest m h

/-- Every match of the dashed identifier pattern is canonical. -/
theorem cnicDashedScan_canon (s m : Str) (h : cnicDashedScan s = some m) :
    isCanonCnic m = true :=
  cnicDashedScanGo_canon (s.length + 1) s m h

theorem digits13At_spec (p : Bool) (s d : Str) (h : digits13At p s = some d) :
    d.length = 13 ∧ ∀ c ∈ d, isDigitC c = true := by
  unfold digits13At at h
  by_cases hp : p = true
  · rw [if_pos hp] at h; cases h
  · rw [if_neg hp] at h
    cases h13 : takeDigits 13 s with
    | none => rw [h13] at h; cases h
    | some pr =>
      obtain ⟨dd, r⟩ := pr
      rw [h13] at h
      obtain ⟨hl, hg, _⟩ := takeDigits_spec 13 s dd r h13
      cases r with
      | nil =>
        injection h with h
        subst h
        exact ⟨hl, hg⟩
      | cons c rest =>
        dsimp only at h
        by_cases hw : isWordC c = true
        · rw [if_pos hw] at h; cases h
        · rw [if_neg hw] at h
          injection h with h
          subst h
          exact ⟨hl, hg⟩

theorem digits13ScanGo_succ (fuel : Nat) (p : Bool) (s : Str) :
    digits13ScanGo (fuel + 1) p s =
      (match digits13At p s with
       | some m => some m
       | none =>
         match s with
         | [] => none
         | c :: rest => digits13ScanGo fuel (isWordC c) rest) := rfl

theorem digits13ScanGo_spec : ∀ (fuel : Nat) (p : Bool) (s m : Str),
    digits13ScanGo fuel p s = some m →
      m.length = 13 ∧ ∀ c ∈ m, isDigitC c = true := by
  intro fuel
  induction fuel with
  | zero => intro p s m h; cases h
  | succ fuel ih =>
    intro p s m h
    rw [digits13ScanGo_succ] at h
    cases ha : digits13At p s with
    | some m2 =>
      rw [ha] at h
      injection h with h
      subst h
      exact digits13At_spec p s m2 ha
    | none =>
      rw [ha] at h
      cases s with
      | nil => cases h
      | cons c rest => exact ih (isWordC c) rest m h

/-- Every match of the word-bounded 13-digit pattern is 13 digits. -/
theorem digits13Scan_spec (s m : Str) (h : digits13Scan s = some m) :
    m.length = 13 ∧ ∀ c ∈ m, isDigitC c = true :=
  digits13ScanGo_spec (s.length + 1) false s m h

/-- Every identifier the CNIC number block produces is canonical. -/
theorem cnicNumberOf_canon (nt v : Str) (h : cnicNumberOf nt = some v) :
    isCanonCnic v = true := by
  unfold cnicNumberOf at h
  cases hs : cnicScan nt with
  | none => rw [hs] at h; cases h
  | some m =>
    rw [hs] at h
    obtain ⟨h13, hd⟩ := cnicScan_strip nt m hs
    dsimp only at h
    rw [if_pos h13] at h
    injection h with h
    subst h
    exact cnicGroup_canon (stripWsDash m) h13 hd

/-- A first match that is already canonical comes back verbatim. -/
theorem cnicNumberOf_idem (nt m : Str) (hs : cnicScan nt = some m)
    (hc : isCanonCnic m = true) : cnicNumberOf nt = some m := by
  obtain ⟨h13, hgrp⟩ := canon_strip_group m hc
  unfold cnicNumberOf
  rw [hs]
  dsimp only
  rw [if_pos h13, hgrp]

/-- Every value the citizenship-number line fallback produces is
canonical. -/
theorem citFallback_canon (ls : List Str) (v : Str)
    (h : citFallback ls = some v) : isCanonCnic v = true := by
  unfold citFallback at h
  obtain ⟨line, _, he⟩ := scanLines_some _ ls v h
  cases hd : cnicDashedScan (trimL line) with
  | some m =>
    rw [hd] at he
    injection he with he
    subst he
    exact cnicDashedScan_canon _ m hd
  | none =>
    rw [hd] at he
    cases h13 : digits13Scan (trimL line) with
    | none => rw [h13] at he; cases he
    | some ds =>
      rw [h13] at he
      injection he with he
      subst he
      obtain ⟨hl, hg⟩ := digits13Scan_spec _ ds h13
      exact cnicGroup_canon ds hl hg

/-! ## Lemmas on cleaned lookups, the filled-field count and bounds -/

theorem not_emptyVal (v : Option Str) : (!(emptyVal v)) = truthyS v := by
  cases v <;> rfl

/-- A required key of a cleaned object carries the original value,
with a missing key appearing as an explicit null. -/
theorem cleanData_required (o : JSObj) (f : String) (hnd : (o.map Prod.fst).Nodup)
    (hreq : (requiredOf o).contains f = true) :
    lookupJS (cleanData o) f = some ((lookupJS o f).join) := by
  rw [cleanData_lookup o f hnd]
  cases hl : lookupJS o f with
  | some v =>
    dsimp only
    rw [hreq, Bool.or_true]
    rfl
  | none =>
    dsimp only
    rw [hreq]
    rfl

/-- A non-empty value survives cleaning under its key. -/
theorem cleanData_keeps_nonempty (o : JSObj) (f : String) (v : Option Str)
    (hnd : (o.map Prod.fst).Nodup) (hlk : lookupJS o f = some v)
    (hne : emptyVal v = false) : lookupJS (cleanData o) f = some v := by
  rw [cleanData_lookup o f hnd, hlk]
  dsimp only
  rw [hne]
  rfl

theorem isFilledIn_cleanData (o : JSObj) (f : String) (v : Option Str)
    (hnd : (o.map Prod.fst).Nodup) (hlk : lookupJS o f = some v) :
    isFilledIn (cleanData o) f = !(emptyVal v) := by
  unfold isFilledIn
  rw [cleanData_lookup o f hnd, hlk]
  cases he : emptyVal v <;> cases hc : (requiredOf o).contains f <;> simp [he, hc]

theorem passportAssoc_keys_nodup (d : PassportData) :
    ((passportAssoc d).map Prod.fst).Nodup := by
  have h : (passportAssoc d).map Prod.fst =
      ["passportNumber", "surname", "givenNames", "nationality", "dateOfBirth",
       "placeOfBirth", "gender", "dateOfIssue", "dateOfExpiry", "issuingAuthority",
       "husbandName", "fatherName", "citizenshipNumber", "trackingNumber",
       "rawText"] := rfl
  rw [h]
  decide

theorem cnicAssoc_keys_nodup (d : CNICData) :
    ((cnicAssoc d).map Prod.fst).Nodup := by
  have h : (cnicAssoc d).map Prod.fst =
      ["name", "fatherName", "country", "cnicNumber", "dateOfBirth", "dateOfIssue",
       "dateOfExpiry", "gender", "address", "rawText"] := rfl
  rw [h]
  decide

/-- The extraction accuracy of a cleaned passport record is the
rounded share of the twelve checked fields carrying a truthy value. -/
theorem extractionAccuracyOf_eq (d : PassportData) :
    extractionAccuracyOf (cleanData (passportAssoc d)) =
      jsRound ((countFilled12 d : ℚ) / 12 * 100) := by
  have hnd := passportAssoc_keys_nodup d
  have hcongr : fieldsToCheck.filter (isFilledIn (cleanData (passportAssoc d))) =
      fieldsToCheck.filter (fun f => truthyS (fieldValOf d f)) := by
    apply List.filter_congr
    intro f hf
    fin_cases hf <;>
      refine (isFilledIn_cleanData _ _ _ hnd ?_).trans (not_emptyVal _) <;> rfl
  have hlen : (fieldsToCheck.filter (isFilledIn (cleanData (passportAssoc d)))).length =
      countFilled12 d := by
    rw [hcongr]
    have h2 : countFilled12 d =
        ((fieldsToCheck.map (fieldValOf d)).filter truthyS).length := rfl
    rw [h2, List.filter_map, List.length_map]
    rfl
  unfold extractionAccuracyOf
  rw [if_pos (by decide : fieldsToCheck.length > 0), hlen]
  norm_num [show fieldsToCheck.length = 12 from rfl]

theorem jsRound_bounds (q : ℚ) (h0 : 0 ≤ q) (h1 : q ≤ 100) :
    0 ≤ jsRound q ∧ jsRound q ≤ 100 := by
  unfold jsRound
  constructor
  · exact Int.le_floor.mpr (by push_cast; linarith)
  · have hlt : q + 1 / 2 < ((101 : ℤ) : ℚ) := by push_cast; linarith
    have := Int.floor_lt.mpr hlt
    omega

theorem countFilled12_le (d : PassportData) : countFilled12 d ≤ 12 := by
  unfold countFilled12
  exact le_trans (List.length_filter_le _ _) (Nat.le_of_eq rfl)

theorem extractionAccuracyOf_bounds (d : PassportData) :
    0 ≤ extractionAccuracyOf (cleanData (passportAssoc d)) ∧
      extractionAccuracyOf (cleanData (passportAssoc d)) ≤ 100 := by
  rw [extractionAccuracyOf_eq]
  apply jsRound_bounds
  · positivity
  · have hle : (countFilled12 d : ℚ) ≤ 12 := by
      exact_mod_cast countFilled12_le d
    rw [div_mul_eq_mul_div, div_le_iff (by norm_num : (0:ℚ) < 12)]
    linarith

theorem ocrConfidenceOf_bounds (words : List ℚ)
    (hw : ∀ c ∈ words, 0 ≤ c ∧ c ≤ 100) :
    0 ≤ ocrConfidenceOf words ∧ ocrConfidenceOf words ≤ 100 := by
  unfold ocrConfidenceOf
  by_cases hl : words.length > 0
  · rw [if_pos hl]
    dsimp only
    set l := (words.map (fun c => c)).filter (fun c => decide (0 < c)) with hldef
    have hmem : ∀ x ∈ l, x ∈ words := by
      intro x hx
      have hx2 := List.mem_filter.mp hx |>.1
      obtain ⟨y, hy, he⟩ := List.mem_map.mp hx2
      exact he ▸ hy
    by_cases hc : l.length > 0
    · rw [if_pos hc]
      have hpos : (0 : ℚ) < (l.length : ℚ) := by exact_mod_cast hc
      constructor
      · apply div_nonneg _ (le_of_lt hpos)
        apply List.sum_nonneg
        intro x hx
        exact (hw x (hmem x hx)).1
      · rw [div_le_iff hpos]
        have hsum : l.sum ≤ l.length • (100 : ℚ) :=
          List.sum_le_card_nsmul l 100 (fun x hx => (hw x (hmem x hx)).2)
        rw [nsmul_eq_mul] at hsum
        linarith
    · rw [if_neg hc]
      norm_num
  · rw [if_neg hl]
    norm_num

theorem overallConfidenceOf_bounds (ocr : ℚ) (acc : ℤ) (mrz : Option MRZData)
    (h0 : 0 ≤ ocr) (hacc : 0 ≤ acc) :
    0 ≤ overallConfidenceOf ocr acc mrz ∧ overallConfidenceOf ocr acc mrz ≤ 100 := by
  unfold overallConfidenceOf
  constructor
  · apply le_min (by norm_num)
    apply Int.le_floor.mpr
    have hb : (0 : ℚ) ≤ (if mrz.isSome then (20 : ℚ) else 0) := by
      split <;> norm_num
    have hq : (0 : ℚ) ≤ (acc : ℚ) := by exact_mod_cast hacc
    push_cast
    nlinarith
  · exact min_le_left _ _

theorem get_if_length (l : List Str) (k : Nat) :
    (if l.length ≥ k + 1 then l.get? k else none) = l.get? k := by
  split
  · rfl
  · rename_i hn
    symm
    rw [List.get?_eq_none]
    omega

/-! ## The date fields of the passport extraction -/

theorem ppDobStep_dateOfBirth_none (lines : List Str) (d : PassportData)
    (hd : d.dateOfBirth = none)
    (hA : labelLoopCur ppDobCond ppDobSame ppDobNext none lines = none)
    (hB : scanLines ppDobLineFb lines = none) :
    (ppDobStep lines d).dateOfBirth = none := by
  unfold ppDobStep
  dsimp only
  rw [hd, hA, hB]
  rfl

theorem ppDoeStep_dateOfExpiry_none (lines : List Str) (d : PassportData)
    (hd : d.dateOfExpiry = none)
    (hC : labelLoopCur ppDoeCond ppDoeSame ppDoeNext none lines = none)
    (hD : scanLines ppDoeLineFb lines = none) :
    (ppDoeStep lines d).dateOfExpiry = none := by
  unfold ppDoeStep
  dsimp only
  rw [hd, hC, hD]
  rfl

/-- With both dates unset and no label-qualified whole-text match, the
date block assigns the first collected date to the birth date and the
second to the expiry date. -/
theorem ppDatesBlock_dates (d : PassportData) (nt : Str)
    (hdb : d.dateOfBirth = none) (hde : d.dateOfExpiry = none)
    (hE : reMatch1 ppDobMonPat nt = none) (hF : reMatch1 ppDobNumPat nt = none)
    (hG : reMatch1 ppExpMonPat nt = none) (hH : reMatch1 ppExpNumPat nt = none) :
    (ppDatesBlock d nt).dateOfBirth = (ppDatesOf nt).get? 0 ∧
      (ppDatesBlock d nt).dateOfExpiry = (ppDatesOf nt).get? 1 := by
  unfold ppDatesBlock
  have hcond : (d.dateOfBirth.isNone || d.dateOfExpiry.isNone) = true := by
    rw [hdb]
    rfl
  rw [if_pos hcond]
  have hL1 : ppDatesDobLabel nt d = d := by
    unfold ppDatesDobLabel
    rw [hdb, hE, hF]
    rfl
  rw [hL1]
  have hOrd1b : (ppDatesDobOrdinal (ppDatesOf nt) d).dateOfBirth =
      (ppDatesOf nt).get? 0 := by
    unfold ppDatesDobOrdinal
    by_cases hlen : (ppDatesOf nt).length ≥ 1
    · simp [hdb, hlen]
    · rw [if_neg (by simp [hdb, hlen]), hdb]
      symm
      rw [List.get?_eq_none]
      omega
  have hOrd1e : (ppDatesDobOrdinal (ppDatesOf nt) d).dateOfExpiry = none :=
    (ppDatesDobOrdinal_dateOfExpiry _ _).trans hde
  have hL2 : ppDatesDoeLabel nt (ppDatesDobOrdinal (ppDatesOf nt) d) =
      ppDatesDobOrdinal (ppDatesOf nt) d := by
    unfold ppDatesDoeLabel
    rw [hOrd1e, hG, hH]
    rfl
  rw [hL2]
  constructor
  · rw [ppDatesDoeOrdinal_dateOfBirth]
    exact hOrd1b
  · unfold ppDatesDoeOrdinal
    by_cases hlen : (ppDatesOf nt).length ≥ 2
    · simp [hOrd1e, hlen, hde]
    · rw [if_neg (by simp [hOrd1e, hlen]), hOrd1e]
      symm
      rw [List.get?_eq_none]
      omega

/-- The issue-date tail of the pipeline: the label loop first, the
whole-text fallback pattern otherwise; no ordinal date reaches it. -/
theorem doiPipeline_eq (lines : List Str) (nt : Str) (d : PassportData)
    (hd : d.dateOfIssue = none) :
    (ppDoiFallbackStep nt (ppCitStep lines (ppTrackStep lines (ppAuthStep lines
        (ppDoiStep lines d))))).dateOfIssue =
      (match labelLoopCur doiCond doiSame doiNext none lines with
       | some v => some v
       | none => (reMatch1 doiFallbackPat nt).map trimL) := by
  have h1 : (ppCitStep lines (ppTrackStep lines (ppAuthStep lines
      (ppDoiStep lines d)))).dateOfIssue =
      labelLoopCur doiCond doiSame doiNext none lines := by
    rw [ppCitStep_dateOfIssue, ppTrackStep_dateOfIssue, ppAuthStep_dateOfIssue]
    show labelLoopCur doiCond doiSame doiNext d.dateOfIssue lines = _
    rw [hd]
  unfold ppDoiFallbackStep
  cases hll : labelLoopCur doiCond doiSame doiNext none lines with
  | some v =>
    rw [if_neg (by rw [h1, hll]; simp)]
    rw [h1, hll]
  | none =>
    rw [if_pos (by rw [h1, hll]; rfl)]
    cases hfb : reMatch1 doiFallbackPat nt with
    | some w => rfl
    | none =>
      dsimp only
      rw [h1]
      exact hll

/-- The issue date of a heuristic-only passport extraction: the label
loop, then the whole-text fallback pattern; never an ordinal date. -/
theorem extractPassportData_doi_eq (t : Str) :
    (extractPassportData t none).dateOfIssue =
      (match labelLoopCur doiCond doiSame doiNext none (linesOf t) with
       | some v => some v
       | none => (reMatch1 doiFallbackPat (normalizeJS t)).map trimL) := by
  simp only [extractPassportData, ppMrzStep_none]
  apply doiPipeline_eq
  simp only [ppFatherStep_dateOfIssue, ppPlaceStep_dateOfIssue, ppGivenStep_dateOfIssue,
    ppSurnameStep_dateOfIssue, ppNationalityStep_dateOfIssue, ppGenderStep_dateOfIssue,
    ppDatesBlock_dateOfIssue, ppDoeStep_dateOfIssue, ppDobStep_dateOfIssue,
    ppPassportNumberStep_dateOfIssue]
  rfl

/-- The birth and expiry dates of a heuristic-only passport extraction
come from the collected date list by ordinal position when every label
route misses. -/
theorem extractPassportData_dates_eq (t : Str)
    (hA : labelLoopCur ppDobCond ppDobSame ppDobNext none (linesOf t) = none)
    (hB : scanLines ppDobLineFb (linesOf t) = none)
    (hC : labelLoopCur ppDoeCond ppDoeSame ppDoeNext none (linesOf t) = none)
    (hD : scanLines ppDoeLineFb (linesOf t) = none)
    (hE : reMatch1 ppDobMonPat (normalizeJS t) = none)
    (hF : reMatch1 ppDobNumPat (normalizeJS t) = none)
    (hG : reMatch1 ppExpMonPat (normalizeJS t) = none)
    (hH : reMatch1 ppExpNumPat (normalizeJS t) = none) :
    (extractPassportData t none).dateOfBirth = (ppDatesOf (normalizeJS t)).get? 0 ∧
      (extractPassportData t none).dateOfExpiry = (ppDatesOf (normalizeJS t)).get? 1 := by
  have hb0 : (ppPassportNumberStep (linesOf t) (normalizeJS t)
      (ppInit t)).dateOfBirth = none := by
    rw [ppPassportNumberStep_dateOfBirth]
    rfl
  have he0 : (ppPassportNumberStep (linesOf t) (normalizeJS t)
      (ppInit t)).dateOfExpiry = none := by
    rw [ppPassportNumberStep_dateOfExpiry]
    rfl
  have h1b := ppDobStep_dateOfBirth_none (linesOf t) _ hb0 hA hB
  have h1e : (ppDobStep (linesOf t) (ppPassportNumberStep (linesOf t) (normalizeJS t)
      (ppInit t))).dateOfExpiry = none := by
    rw [ppDobStep_dateOfExpiry]
    exact he0
  have h2b : (ppDoeStep (linesOf t) (ppDobStep (linesOf t)
      (ppPassportNumberStep (linesOf t) (normalizeJS t)
        (ppInit t)))).dateOfBirth = none := by
    rw [ppDoeStep_dateOfBirth]
    exact h1b
  have h2e := ppDoeStep_dateOfExpiry_none (linesOf t) _ h1e hC hD
  obtain ⟨hx, hy⟩ := ppDatesBlock_dates _ (normalizeJS t) h2b h2e hE hF hG hH
  refine ⟨?_, ?_⟩
  · simp only [extractPassportData, ppMrzStep_none, ppDoiFallbackStep_dateOfBirth,
      ppCitStep_dateOfBirth, ppTrackStep_dateOfBirth, ppAuthStep_dateOfBirth,
      ppDoiStep_dateOfBirth, ppFatherStep_dateOfBirth, ppPlaceStep_dateOfBirth,
      ppGivenStep_dateOfBirth, ppSurnameStep_dateOfBirth, ppNationalityStep_dateOfBirth,
      ppGenderStep_dateOfBirth]
    exact hx
  · simp only [extractPassportData, ppMrzStep_none, ppDoiFallbackStep_dateOfExpiry,
      ppCitStep_dateOfExpiry, ppTrackStep_dateOfExpiry, ppAuthStep_dateOfExpiry,
      ppDoiStep_dateOfExpiry, ppFatherStep_dateOfExpiry, ppPlaceStep_dateOfExpiry,
      ppGivenStep_dateOfExpiry, ppSurnameStep_dateOfExpiry, ppNationalityStep_dateOfExpiry,
      ppGenderStep_dateOfExpiry]
    exact hy

/-! ## The claims -/

/-- C1: the claim says a validated MRZ value overwrites any heuristic
value (precedence MRZ over Label over Fallback).  The code violates
this: the same-line label branch assigns unconditionally, so on this
input the validated MRZ document number AB1234567 is overwritten by
the label-derived CD7654321 in the final record even though the MRZ
record was used. -/
theorem claim_C1 :
    (mrzDataOfOutcome (.ok mrzParseC1)).map MRZData.passportNumber =
        some (some (strL "AB1234567")) ∧
    (passportRoute (strL "Passport Number: CD7654321") (.ok mrzParseC1) []).mrzUsed =
        true ∧
    lookupJS (passportRoute (strL "Passport Number: CD7654321")
        (.ok mrzParseC1) []).data "passportNumber" =
      some (some (strL "CD7654321")) :=
  ⟨rfl, rfl, rfl⟩

/-- C2: for every input and both document types, each required field
is present in the cleaned record, carrying its extracted value or an
explicit null, and every surviving empty-valued entry is a required
field, so non-required null or empty fields are dropped. -/
theorem claim_C2 (t : Str) (mrz : Option MRZData) :
    (∀ f ∈ cnicRequiredFields,
      lookupJS (cleanData (cnicAssoc (extractCNICData t))) f =
        some ((lookupJS (cnicAssoc (extractCNICData t)) f).join)) ∧
    (∀ f ∈ passportRequiredFields,
      lookupJS (cleanData (passportAssoc (extractPassportData t mrz))) f =
        some ((lookupJS (passportAssoc (extractPassportData t mrz)) f).join)) ∧
    (∀ kv ∈ cleanData (cnicAssoc (extractCNICData t)),
      emptyVal kv.2 = true → kv.1 ∈ cnicRequiredFields) ∧
    (∀ kv ∈ cleanData (passportAssoc (extractPassportData t mrz)),
      emptyVal kv.2 = true → kv.1 ∈ passportRequiredFields) := by
  have hndc := cnicAssoc_keys_nodup (extractCNICData t)
  have hndp := passportAssoc_keys_nodup (extractPassportData t mrz)
  have hreqc : requiredOf (cnicAssoc (extractCNICData t)) = cnicRequiredFields := rfl
  have hreqp : requiredOf (passportAssoc (extractPassportData t mrz)) =
      passportRequiredFields := rfl
  refine ⟨?_, ?_, ?_, ?_⟩
  · intro f hf
    apply cleanData_required _ _ hndc
    rw [hreqc]
    exact List.elem_iff.mpr hf
  · intro f hf
    apply cleanData_required _ _ hndp
    rw [hreqp]
    exact List.elem_iff.mpr hf
  · intro kv hkv hemp
    have h := cleanData_entry _ kv hkv
    rw [hreqc, hemp] at h
    rcases Bool.or_eq_true _ _ |>.mp h with h1 | h2
    · exact List.elem_iff.mp h1
    · simp at h2
  · intro kv hkv hemp
    have h := cleanData_entry _ kv hkv
    rw [hreqp, hemp] at h
    rcases Bool.or_eq_true _ _ |>.mp h with h1 | h2
    · exact List.elem_iff.mp h1
    · simp at h2

/-- C3: the claim says accepted MRZ candidate pairs normalize to two
lines of exactly 44 characters.  The code violates this on line 1:
when the accepted line starts with the category letter but no filler
and the correction step could not insert one, the re-anchoring step
prepends the two-character marker to the already 44-character padded
line, producing 45 characters; line 2 is 44 as specified. -/
theorem claim_C3 :
    mrzCandidate1 (strL "P1PAB<<DOE<<JOHN<<<<<") =
        some (strL "P1PAB<<DOE<<JOHN<<<<<") ∧
    mrzCandidate2 (strL "AB1234567PAK<<<<<<<<<<<") =
        some (strL "AB1234567PA<<<<<<<<<<<") ∧
    (mrzNormalizeLine1 (strL "P1PAB<<DOE<<JOHN<<<<<")).length = 45 ∧
    (mrzNormalizeLine2 (strL "AB1234567PA<<<<<<<<<<<")).length = 44 :=
  ⟨rfl, rfl, rfl, rfl⟩

/-- C4 (amended): the reported extraction accuracy is the rounded
share of the twelve checked fields (the ten required ones plus
dateOfBirth, placeOfBirth, gender and dateOfExpiry minus fatherName
and trackingNumber) carrying a non-empty value, over twelve, not over
the ten-field required set of the claim. -/
theorem claim_C4 (t : Str) (outcome : ParseOutcome) (words : List ℚ) :
    (passportRoute t outcome words).extractionAccuracy =
      jsRound ((countFilled12 (extractPassportData t (mrzDataOfOutcome outcome)) : ℚ)
        / 12 * 100) :=
  extractionAccuracyOf_eq _

/-- C4 counterexample: on the text MALE only the optional gender field
fills, so the reported accuracy is round(1/12*100) = 8 while the
claim's required-ten formula gives 0. -/
theorem claim_C4_counterexample :
    (passportRoute (strL "MALE") .threw []).extractionAccuracy = 8 ∧
    claimExtractionAccuracy (passportRoute (strL "MALE") .threw []).data = 0 := by
  constructor
  · have h1 : (passportRoute (strL "MALE") .threw []).extractionAccuracy =
        jsRound ((countFilled12 (extractPassportData (strL "MALE") none) : ℚ)
          / 12 * 100) := extractionAccuracyOf_eq _
    rw [h1, show countFilled12 (extractPassportData (strL "MALE") none) = 1 from rfl]
    unfold jsRound
    rw [Int.floor_eq_iff]
    norm_num
  · have h2 : claimExtractionAccuracy (passportRoute (strL "MALE") .threw []).data =
        jsRound (100 * (((passportRequiredFields.filter (fun f =>
          match lookupJS (passportRoute (strL "MALE") .threw []).data f with
          | some v => v.isSome
          | none => false)).length : ℚ) / (passportRequiredFields.length : ℚ))) := rfl
    rw [h2, show (passportRequiredFields.filter (fun f =>
        match lookupJS (passportRoute (strL "MALE") .threw []).data f with
        | some v => v.isSome
        | none => false)).length = 0 from rfl,
      show passportRequiredFields.length = 10 from rfl]
    unfold jsRound
    rw [Int.floor_eq_iff]
    norm_num

/-- C5: when the MRZ parse throws or reports the record invalid, the
MRZ contribution is null, the route still answers success without the
MRZ flag, and the data is exactly the heuristic-only extraction. -/
theorem claim_C5 (t : Str) (words : List ℚ) (outcome : ParseOutcome)
    (h : outcome = .threw ∨ ∃ r, outcome = .ok r ∧ r.valid = false) :
    mrzDataOfOutcome outcome = none ∧
    passportRoute t outcome words = passportRoute t .threw words ∧
    (passportRoute t outcome words).success = true ∧
    (passportRoute t outcome words).mrzUsed = false ∧
    (passportRoute t outcome words).data =
      cleanData (passportAssoc (extractPassportData t none)) := by
  have hm : mrzDataOfOutcome outcome = none := by
    rcases h with h | ⟨r, hr, hv⟩
    · rw [h]
      rfl
    · rw [hr]
      show (if r.valid = true then some (mrzDataOf r) else none) = none
      rw [hv]
      rfl
  refine ⟨hm, ?_, rfl, ?_, ?_⟩
  · simp only [passportRoute]
    rw [hm]
    rfl
  · show (mrzDataOfOutcome outcome).isSome = false
    rw [hm]
    rfl
  · show cleanData (passportAssoc (extractPassportData t (mrzDataOfOutcome outcome))) = _
    rw [hm]

/-- C5 witness: the thrown outcome at a concrete input. -/
theorem claim_C5_witness :
    mrzDataOfOutcome .threw = none ∧
      (passportRoute (strL "X") .threw []).mrzUsed = false := by
  have h := claim_C5 (strL "X") [] .threw (Or.inl rfl)
  exact ⟨h.1, h.2.2.2.1⟩

/-- C6 (amended): when no label route matches, the NationalID
extractor assigns the first, second and third whole-text date to
birth, issue and expiry, with a label match taking precedence; the
passport extractor assigns the first date to birth and the SECOND to
expiry, and its issue date comes only from its label loop or the
issue fallback pattern, never from the ordinal list. -/
theorem claim_C6 (t : Str)
    (hA : labelLoopCur ppDobCond ppDobSame ppDobNext none (linesOf t) = none)
    (hB : scanLines ppDobLineFb (linesOf t) = none)
    (hC : labelLoopCur ppDoeCond ppDoeSame ppDoeNext none (linesOf t) = none)
    (hD : scanLines ppDoeLineFb (linesOf t) = none)
    (hE : reMatch1 ppDobMonPat (normalizeJS t) = none)
    (hF : reMatch1 ppDobNumPat (normalizeJS t) = none)
    (hG : reMatch1 ppExpMonPat (normalizeJS t) = none)
    (hH : reMatch1 ppExpNumPat (normalizeJS t) = none) :
    ((extractCNICData t).dateOfBirth =
      (match reMatch1 cnPatDob (normalizeJS t) with
       | some v => some v
       | none => (reMatchAll cnPatDate (normalizeJS t)).get? 0)) ∧
    ((extractCNICData t).dateOfIssue =
      (match reMatch1 cnPatIssue (normalizeJS t) with
       | some v => some v
       | none => (reMatchAll cnPatDate (normalizeJS t)).get? 1)) ∧
    ((extractCNICData t).dateOfExpiry =
      (match reMatch1 cnPatExpiry (normalizeJS t) with
       | some v => some v
       | none => (reMatchAll cnPatDate (normalizeJS t)).get? 2)) ∧
    (extractPassportData t none).dateOfBirth = (ppDatesOf (normalizeJS t)).get? 0 ∧
    (extractPassportData t none).dateOfExpiry = (ppDatesOf (normalizeJS t)).get? 1 ∧
    (extractPassportData t none).dateOfIssue =
      (match labelLoopCur doiCond doiSame doiNext none (linesOf t) with
       | some v => some v
       | none => (reMatch1 doiFallbackPat (normalizeJS t)).map trimL) := by
  obtain ⟨hx, hy⟩ := extractPassportData_dates_eq t hA hB hC hD hE hF hG hH
  refine ⟨?_, ?_, ?_, hx, hy, extractPassportData_doi_eq t⟩
  · rw [extractCNICData_dateOfBirth]
    cases hm : reMatch1 cnPatDob (normalizeJS t) with
    | some v => rfl
    | none => exact get_if_length _ 0
  · rw [extractCNICData_dateOfIssue]
    cases hm : reMatch1 cnPatIssue (normalizeJS t) with
    | some v => rfl
    | none => exact get_if_length _ 1
  · rw [extractCNICData_dateOfExpiry]
    cases hm : reMatch1 cnPatExpiry (normalizeJS t) with
    | some v => rfl
    | none => exact get_if_length _ 2

/-- C6 witness: three unlabeled dates; the NationalID extractor fills
birth, issue and expiry in order, the passport extractor fills birth
and expiry with the first two and leaves the issue date null. -/
theorem claim_C6_witness :
    (extractCNICData (strL "01.01.1990 01.01.2015 01.01.2025")).dateOfBirth =
        some (strL "01.01.1990") ∧
    (extractCNICData (strL "01.01.1990 01.01.2015 01.01.2025")).dateOfIssue =
        some (strL "01.01.2015") ∧
    (extractCNICData (strL "01.01.1990 01.01.2015 01.01.2025")).dateOfExpiry =
        some (strL "01.01.2025") ∧
    (extractPassportData (strL "01.01.1990 01.01.2015 01.01.2025") none).dateOfBirth =
        some (strL "01.01.1990") ∧
    (extractPassportData (strL "01.01.1990 01.01.2015 01.01.2025") none).dateOfExpiry =
        some (strL "01.01.2015") ∧
    (extractPassportData (strL "01.01.1990 01.01.2015 01.01.2025") none).dateOfIssue =
        none := by
  have h := claim_C6 (strL "01.01.1990 01.01.2015 01.01.2025")
    rfl rfl rfl rfl rfl rfl rfl rfl
  exact ⟨h.1.trans (by rfl), h.2.1.trans (by rfl), h.2.2.1.trans (by rfl),
    h.2.2.2.1.trans (by rfl), h.2.2.2.2.1.trans (by rfl), h.2.2.2.2.2.trans (by rfl)⟩

/-- C6 counterexample: on three unlabeled dates the passport extractor
leaves dateOfIssue null and puts the second date into dateOfExpiry,
against the claimed second-to-issue, third-to-expiry assignment. -/
theorem claim_C6_counterexample :
    (extractPassportData (strL "01.01.1990 01.01.2015 01.01.2025") none).dateOfIssue =
        none ∧
    (extractPassportData (strL "01.01.1990 01.01.2015 01.01.2025") none).dateOfExpiry =
        some (strL "01.01.2015") :=
  ⟨rfl, rfl⟩

/-- C7: the extractors and the cleaner are total functions of the
text: every input yields a record, and on empty text every field is
an explicit null, with the cleaned records presenting the required
keys as explicit nulls rather than errors. -/
theorem claim_C7 :
    (∀ (t : Str) (mrz : Option MRZData), ∃ (c : CNICData) (p : PassportData)
        (oc op : JSObj), extractCNICData t = c ∧ extractPassportData t mrz = p ∧
        cleanData (cnicAssoc c) = oc ∧ cleanData (passportAssoc p) = op) ∧
    extractCNICData [] =
      { name := none, fatherName := none, country := none, cnicNumber := none,
        dateOfBirth := none, dateOfIssue := none, dateOfExpiry := none,
        gender := none, address := none, rawText := [] } ∧
    extractPassportData [] none = ppInit [] ∧
    cleanData (cnicAssoc (extractCNICData [])) =
      [("name", none), ("fatherName", none), ("country", none),
       ("cnicNumber", none)] ∧
    cleanData (passportAssoc (extractPassportData [] none)) =
      [("passportNumber", none), ("surname", none), ("givenNames", none),
       ("nationality", none), ("dateOfIssue", none), ("issuingAuthority", none),
       ("husbandName", none), ("fatherName", none), ("citizenshipNumber", none),
       ("trackingNumber", none)] :=
  ⟨fun t mrz => ⟨_, _, _, _, rfl, rfl, rfl, rfl⟩, rfl, rfl, rfl, rfl⟩

/-- C8: with word confidences in [0,100] the reported accuracy and
overall confidence are integers in [0,100]; on empty text the
accuracy is 0 and the overall confidence is the capped rounded OCR
half-term alone. -/
theorem claim_C8 (t : Str) (outcome : ParseOutcome) (words : List ℚ)
    (hw : ∀ c ∈ words, 0 ≤ c ∧ c ≤ 100) :
    (0 ≤ (passportRoute t outcome words).extractionAccuracy ∧
      (passportRoute t outcome words).extractionAccuracy ≤ 100) ∧
    (0 ≤ (passportRoute t outcome words).overallConfidence ∧
      (passportRoute t outcome words).overallConfidence ≤ 100) ∧
    (passportRoute [] .threw words).extractionAccuracy = 0 ∧
    (passportRoute [] .threw words).overallConfidence =
      min 100 (jsRound (ocrConfidenceOf words * (1 / 2))) := by
  obtain ⟨ho0, ho1⟩ := ocrConfidenceOf_bounds words hw
  obtain ⟨ha0, ha1⟩ :=
    extractionAccuracyOf_bounds (extractPassportData t (mrzDataOfOutcome outcome))
  obtain ⟨hv0, hv1⟩ := overallConfidenceOf_bounds (ocrConfidenceOf words)
    (extractionAccuracyOf (cleanData (passportAssoc
      (extractPassportData t (mrzDataOfOutcome outcome)))))
    (mrzDataOfOutcome outcome) ho0 ha0
  have hacc0 : extractionAccuracyOf (cleanData (passportAssoc
      (extractPassportData [] none))) = 0 := by
    rw [extractionAccuracyOf_eq,
      show countFilled12 (extractPassportData [] none) = 0 from rfl]
    unfold jsRound
    rw [Int.floor_eq_iff]
    norm_num
  refine ⟨⟨ha0, ha1⟩, ⟨hv0, hv1⟩, hacc0, ?_⟩
  show overallConfidenceOf (ocrConfidenceOf words) (extractionAccuracyOf (cleanData
    (passportAssoc (extractPassportData [] none)))) none = _
  rw [hacc0]
  unfold overallConfidenceOf
  dsimp only
  have h2 : ocrConfidenceOf words * (1 / 2) + ((0 : ℤ) : ℚ) * (3 / 10) +
      (if (none : Option MRZData).isSome then (20 : ℚ) else 0) =
      ocrConfidenceOf words * (1 / 2) := by
    simp
  rw [h2]

/-- C8 witness: two word confidences inside the range. -/
theorem claim_C8_witness :
    0 ≤ (passportRoute (strL "X") .threw [90, 80]).overallConfidence ∧
      (passportRoute (strL "X") .threw [90, 80]).overallConfidence ≤ 100 := by
  have h := claim_C8 (strL "X") .threw [90, 80] (by decide)
  exact h.2.1

/-- C9: a first identifier match already in canonical dash-grouped
form is returned verbatim (idempotence); every extracted NationalID
identifier and every citizenship-number fallback value is rendered in
the canonical 5-7-1 dash-grouped form. -/
theorem claim_C9 :
    (∀ t m : Str, cnicScan (normalizeJS t) = some m → isCanonCnic m = true →
      (extractCNICData t).cnicNumber = some m) ∧
    (∀ t v : Str, (extractCNICData t).cnicNumber = some v →
      isCanonCnic v = true) ∧
    (∀ (ls : List Str) (v : Str), citFallback ls = some v →
      isCanonCnic v = true) := by
  refine ⟨?_, ?_, citFallback_canon⟩
  · intro t m hs hc
    rw [extractCNICData_cnicNumber]
    exact cnicNumberOf_idem _ m hs hc
  · intro t v hv
    rw [extractCNICData_cnicNumber] at hv
    exact cnicNumberOf_canon _ v hv

/-- C9 witness: a canonical identifier passes through unchanged. -/
theorem claim_C9_witness :
    (extractCNICData (strL "12345-1234567-1")).cnicNumber =
      some (strL "12345-1234567-1") :=
  claim_C9.1 (strL "12345-1234567-1") (strL "12345-1234567-1") rfl (by decide)

/-- C10: for non-empty text, both cleaned records keep the rawText key
with the input text verbatim, because cleaning only drops null or
empty values. -/
theorem claim_C10 (t : Str) (mrz : Option MRZData) (ht : t ≠ []) :
    lookupJS (cleanData (cnicAssoc (extractCNICData t))) "rawText" =
        some (some t) ∧
    lookupJS (cleanData (passportAssoc (extractPassportData t mrz))) "rawText" =
        some (some t) := by
  have hne : emptyVal (some t) = false := by
    cases t with
    | nil => exact absurd rfl ht
    | cons c r => rfl
  constructor
  · have hlk : lookupJS (cnicAssoc (extractCNICData t)) "rawText" =
        some (some t) := by
      have h0 : lookupJS (cnicAssoc (extractCNICData t)) "rawText" =
          some (some (extractCNICData t).rawText) := rfl
      rw [h0, extractCNICData_rawText]
    exact cleanData_keeps_nonempty _ _ _ (cnicAssoc_keys_nodup _) hlk hne
  · have hlk : lookupJS (passportAssoc (extractPassportData t mrz)) "rawText" =
        some (some t) := by
      have h0 : lookupJS (passportAssoc (extractPassportData t mrz)) "rawText" =
          some (some (extractPassportData t mrz).rawText) := rfl
      rw [h0, extractPassportData_rawText]
    exact cleanData_keeps_nonempty _ _ _ (passportAssoc_keys_nodup _) hlk hne

/-- C10 witness: a one-character text. -/
theorem claim_C10_witness :
    lookupJS (cleanData (cnicAssoc (extractCNICData (strL "X")))) "rawText" =
      some (some (strL "X")) :=
  (claim_C10 (strL "X") none (by decide)).1

/-- C2 witness: an unextracted required field appears as an explicit
null. -/
theorem claim_C2_witness :
    lookupJS (cleanData (cnicAssoc (extractCNICData (strL "X")))) "name" =
      some none := by
  have h := (claim_C2 (strL "X") none).1 "name" (by decide)
  rw [h]
  rfl

end ImgX



